import Mathlib

/-
  Verification development for the accounting computation engine
  (backend/app: crud.py, reports.py, validation.py).

  Monetary amounts stored on entities are exact 2-decimal fixed-point
  values; we embed them as integer numbers of cents (ℤ).  The tax-split
  primitive works on Python Decimals; we embed those as rationals (ℚ),
  modelling Decimal division as exact rational division followed by the
  final 2-decimal quantization (Decimal's intermediate 28-significant-digit
  context rounding is exact on every input considered here).
  Decimal.quantize uses the default context rounding, ROUND_HALF_EVEN,
  which we embed as round-half-to-even below.
-/

namespace AccApp

/-- Round a rational to the nearest integer, ties to even
    (Python Decimal ROUND_HALF_EVEN). -/
def roundHalfEvenInt (x : ℚ) : ℤ :=
  if x - (⌊x⌋ : ℚ) < 1/2 then ⌊x⌋
  else if 1/2 < x - (⌊x⌋ : ℚ) then ⌊x⌋ + 1
  else if ⌊x⌋ % 2 = 0 then ⌊x⌋ else ⌊x⌋ + 1

/-- Embedding of Decimal.quantize(Decimal("0.01")) with default rounding. -/
def quantize2 (x : ℚ) : ℚ := (roundHalfEvenInt (x * 100) : ℚ) / 100

/-- models.TaxRate: only the rate field matters to the engine. -/
structure TaxRate where
  rate : ℚ
deriving DecidableEq

/-- crud.calculate_tax_amount: if the rate is absent or 0, return 0.00;
    otherwise return (gross / (1 + rate)).quantize(0.01).
    Note the source returns this quantized quotient as the TAX amount. -/
def calculate_tax_amount (gross_amount : ℚ) (tax_rate : Option TaxRate) : ℚ :=
  match tax_rate with
  | none => 0
  | some tr => if tr.rate = 0 then 0 else quantize2 (gross_amount / (1 + tr.rate))

/-- crud.calculate_net_amount: net = gross - tax. -/
def calculate_net_amount (gross_amount tax_amount : ℚ) : ℚ :=
  gross_amount - tax_amount

/-- Modelled from the spec (§4.1 as the claim reads it): half-up rounding
    to 2 decimal places, an exact half-cent rounding away from zero.
    This is the rounding mode the spec asserts; it exists here only to be
    compared with the code's quantize2. -/
def specRoundHalfUp2 (x : ℚ) : ℚ :=
  (if 0 ≤ x then ⌊x * 100 + 1/2⌋ else -⌊-(x * 100) + 1/2⌋ : ℤ) / 100

/-! ## Calendar dates

Python datetime.date values, ordered lexicographically by
(year, month, day); Date.key realizes that order on valid dates.
Date.toDays is the standard days-from-civil algorithm, so that
(d2 - d1).days in Python equals d2.toDays - d1.toDays. -/

structure Date where
  year : ℤ
  month : ℕ
  day : ℕ
deriving DecidableEq

def Date.key (d : Date) : ℤ := d.year * 10000 + (d.month : ℤ) * 100 + (d.day : ℤ)

instance : LE Date := ⟨fun a b => a.key ≤ b.key⟩

instance : LT Date := ⟨fun a b => a.key < b.key⟩

instance (a b : Date) : Decidable (a ≤ b) := inferInstanceAs (Decidable (a.key ≤ b.key))

instance (a b : Date) : Decidable (a < b) := inferInstanceAs (Decidable (a.key < b.key))

/-- Days since the civil epoch 1970-01-01 (Howard Hinnant's days_from_civil),
    embedding Python date subtraction: (a - b).days = a.toDays - b.toDays. -/
def Date.toDays (d : Date) : ℤ :=
  let y : ℤ := if d.month ≤ 2 then d.year - 1 else d.year
  let era : ℤ := Int.fdiv y 400
  let yoe : ℤ := y - era * 400
  let mp : ℕ := (d.month + 9) % 12
  let doy : ℤ := ((153 * mp + 2) / 5 : ℕ) + (d.day : ℤ) - 1
  let doe : ℤ := yoe * 365 + Int.fdiv yoe 4 - Int.fdiv yoe 100 + doy
  era * 146097 + doe - 719468

/-! ## Data model (models.py), restricted to the fields the engine reads.

All monetary fields are integer cents. -/

inductive AccountType where
  | BANK
  | CREDIT_CARD
  | CASH
  | ASSET
deriving DecidableEq

inductive CategoryType where
  | INCOME
  | COGS
  | EXPENSE
deriving DecidableEq

inductive TransactionDirection where
  | IN
  | OUT
deriving DecidableEq

inductive SpecialType where
  | CAPITAL
  | LOAN_IN
  | TRANSFER_IN
  | TRANSFER_OUT
  | ASSET_PURCHASE
  | TAX_PAYMENT
  | LOAN_REPAYMENT
  | DRAWINGS
  | INCOME_TAX
  | PAYROLL_TAX
deriving DecidableEq

structure Account where
  id : ℕ
  type : AccountType
  opening_balance : ℤ
deriving DecidableEq

structure Category where
  id : ℕ
  code : String
  type : CategoryType
deriving DecidableEq

structure TransactionLine where
  id : ℕ
  category_id : Option ℕ
  special_type : Option SpecialType
  amount : ℤ
deriving DecidableEq

structure Transaction where
  id : ℕ
  account_id : ℕ
  date : Date
  direction : TransactionDirection
  gross_amount : ℤ
  tax_amount : ℤ
  net_amount : ℤ
  is_reconciled : Bool
  lines : List TransactionLine
deriving DecidableEq

/-- One business's data as handed to the engine by the store (the SQL
    queries all filter on Account.business_id; here the ledger is already
    the slice belonging to the one business under computation). -/
structure Ledger where
  accounts : List Account
  categories : List Category
  transactions : List Transaction
deriving DecidableEq

/-- The external store: which business ids exist, and each business's data. -/
structure Store where
  business_ids : List ℕ
  ledgerOf : ℕ → Ledger

/-! ## P&L engine (reports.py, PLReportService) -/

/-- Transactions whose date falls in the month window used by
    _calculate_month: [first of month, first of next month) for months
    1-11, and [Dec 1, Dec 31] for month 12. -/
def inMonthWindow (year : ℤ) (month : ℕ) (d : Date) : Bool :=
  if month = 12 then
    decide ((Date.mk year 12 1) ≤ d) && decide (d ≤ Date.mk year 12 31)
  else
    decide ((Date.mk year month 1) ≤ d) && decide (d < Date.mk year (month + 1) 1)

/-- The TransactionLine-join-Transaction query of _calculate_month:
    all allocation lines of the business whose parent transaction's date
    is in the month window. -/
def monthLines (l : Ledger) (year : ℤ) (month : ℕ) : List TransactionLine :=
  (l.transactions.filter (fun t => inMonthWindow year month t.date)).flatMap (·.lines)

/-- Python dict accumulation d[k] = d.get(k, 0) + v, preserving insertion
    order: an existing key is updated in place, a new key appended. -/
def upsertAdd (m : List (String × ℤ)) (k : String) (v : ℤ) : List (String × ℤ) :=
  match m with
  | [] => [(k, v)]
  | (k', v') :: rest =>
    if k' = k then (k', v' + v) :: rest else (k', v') :: upsertAdd rest k v

def lookupKey (m : List (String × ℤ)) (k : String) : Option ℤ :=
  match m with
  | [] => none
  | (k', v') :: rest => if k' = k then some v' else lookupKey rest k

/-- The `next((c.code for c in cats if c.id == cid), "unknown")` lookup. -/
def lineCode (cats : List Category) (cid : ℕ) : String :=
  ((cats.find? (fun c => c.id = cid)).map (·.code)).getD ("unknown")

/-- The body of one per-type accumulation loop of _calculate_month: a
    line with a truthy category_id belonging to the bucket adds its
    amount to the running total and to the by-category dict. -/
def bucketStep (cats : List Category) (acc : ℤ × List (String × ℤ))
    (line : TransactionLine) : ℤ × List (String × ℤ) :=
  match line.category_id with
  | some cid =>
    if cid ≠ 0 ∧ cid ∈ cats.map (·.id) then
      (acc.1 + line.amount, upsertAdd acc.2 (lineCode cats cid) line.amount)
    else acc
  | none => acc

/-- One per-type accumulation loop of _calculate_month (sparse: a code
    appears in the dict only if some line contributed). -/
def bucketAccum (cats : List Category) (lines : List TransactionLine) :
    ℤ × List (String × ℤ) :=
  lines.foldl (bucketStep cats) (0, [])

structure MonthPL where
  income_total : ℤ
  income_by_category : List (String × ℤ)
  cogs_total : ℤ
  cogs_by_category : List (String × ℤ)
  inventory_adjustment : ℤ
  expenses_total : ℤ
  expenses_by_category : List (String × ℤ)
  gross_profit : ℤ
  net_profit : ℤ
deriving DecidableEq

/-- PLReportService._calculate_month. -/
def calculate_month (l : Ledger) (year : ℤ) (month : ℕ) : MonthPL :=
  let income_cats := l.categories.filter (fun c => c.type = CategoryType.INCOME)
  let cogs_cats := l.categories.filter (fun c => c.type = CategoryType.COGS)
  let expense_cats := l.categories.filter (fun c => c.type = CategoryType.EXPENSE)
  let lines := monthLines l year month
  let income := bucketAccum income_cats lines
  let cogs := bucketAccum cogs_cats lines
  let expenses := bucketAccum expense_cats lines
  let inventory_adjustment : ℤ := 0
  let cogs_total := cogs.1 + inventory_adjustment
  { income_total := income.1
    income_by_category := income.2
    cogs_total := cogs_total
    cogs_by_category := cogs.2
    inventory_adjustment := inventory_adjustment
    expenses_total := expenses.1
    expenses_by_category := expenses.2
    gross_profit := income.1 - cogs_total
    net_profit := income.1 - cogs_total - expenses.1 }

/-- The inner merge loop of _calculate_ytd over one month's dict. -/
def addBucket (ytd : List (String × ℤ)) (m : List (String × ℤ)) : List (String × ℤ) :=
  m.foldl (fun acc kv => upsertAdd acc kv.1 kv.2) ytd

/-- The body of the month loop of _calculate_ytd: scalar fields are
    added, per-category dicts merged key-wise. -/
def ytdStep (ytd m : MonthPL) : MonthPL :=
  { income_total := ytd.income_total + m.income_total
    income_by_category := addBucket ytd.income_by_category m.income_by_category
    cogs_total := ytd.cogs_total + m.cogs_total
    cogs_by_category := addBucket ytd.cogs_by_category m.cogs_by_category
    inventory_adjustment := ytd.inventory_adjustment + m.inventory_adjustment
    expenses_total := ytd.expenses_total + m.expenses_total
    expenses_by_category := addBucket ytd.expenses_by_category m.expenses_by_category
    gross_profit := ytd.gross_profit + m.gross_profit
    net_profit := ytd.net_profit + m.net_profit }

/-- PLReportService._calculate_ytd: element-wise sum of the monthly
    structures, per-category dicts merged key-wise. -/
def calculate_ytd (months : List MonthPL) : MonthPL :=
  months.foldl
    (fun ytd m =>
      { income_total := ytd.income_total + m.income_total
        income_by_category := addBucket ytd.income_by_category m.income_by_category
        cogs_total := ytd.cogs_total + m.cogs_total
        cogs_by_category := addBucket ytd.cogs_by_category m.cogs_by_category
        inventory_adjustment := ytd.inventory_adjustment + m.inventory_adjustment
        expenses_total := ytd.expenses_total + m.expenses_total
        expenses_by_category := addBucket ytd.expenses_by_category m.expenses_by_category
        gross_profit := ytd.gross_profit + m.gross_profit
        net_profit := ytd.net_profit + m.net_profit })
    { income_total := 0, income_by_category := []
      cogs_total := 0, cogs_by_category := [], inventory_adjustment := 0
      expenses_total := 0, expenses_by_category := []
      gross_profit := 0, net_profit := 0 }

structure PLReport where
  months : List (ℕ × MonthPL)
  ytd : MonthPL
deriving DecidableEq

/-- The per-ledger body of PLReportService.generate_report: twelve month
    entries keyed 1..12 plus their YTD fold. -/
def plReportOfLedger (l : Ledger) (year : ℤ) : PLReport :=
  let ms := (List.range 12).map (fun i => (i + 1, calculate_month l year (i + 1)))
  { months := ms, ytd := calculate_ytd (ms.map (·.2)) }

/-- PLReportService.generate_report at the store boundary: the source
    performs no existence check on the business — it simply queries the
    business's categories and transactions (empty for a missing id) and
    aggregates them. -/
def PL_generate_report (s : Store) (business_id : ℕ) (year : ℤ) : PLReport :=
  plReportOfLedger (s.ledgerOf business_id) year

/-! ## Balance sheet engine (reports.py, BalanceSheetService) -/

def isLeapYear (y : ℤ) : Bool :=
  (y % 4 = 0 && y % 100 ≠ 0) || y % 400 = 0

/-- The as-of date computed at the top of the month loop in
    generate_report: month 12 uses Dec 31, otherwise the month's last
    calendar day with the source's explicit day table. -/
def asOfDate (year : ℤ) (month : ℕ) : Date :=
  if month = 12 then Date.mk year 12 31
  else if month ∈ [1, 3, 5, 7, 8, 10, 12] then Date.mk year month 31
  else if month = 2 then
    if isLeapYear year then Date.mk year month 29 else Date.mk year month 28
  else Date.mk year month 30

def signedGross (t : Transaction) : ℤ :=
  match t.direction with
  | .IN => t.gross_amount
  | .OUT => -t.gross_amount

/-- Closing balance of one account as of a date: opening balance plus
    signed gross amounts of its transactions dated on or before. -/
def accountBalanceAsOf (l : Ledger) (a : Account) (asOf : Date) : ℤ :=
  a.opening_balance +
    ((l.transactions.filter (fun t => t.account_id = a.id ∧ t.date ≤ asOf)).map
      signedGross).sum

/-- The bank_balance accumulation of _calculate_snapshot. -/
def bankBalanceTotal (l : Ledger) (asOf : Date) : ℤ :=
  ((l.accounts.filter (fun a => a.type = AccountType.BANK)).map
    (fun a => accountBalanceAsOf l a asOf)).sum

/-- Sum of line amounts of a given special type over one transaction. -/
def lineTypeSum (t : Transaction) (st : SpecialType) : ℤ :=
  ((t.lines.filter (fun ln => ln.special_type = some st)).map (·.amount)).sum

/-- Cumulative sum of line amounts of a given special type over all
    transactions dated on or before the as-of date (the repeated
    TransactionLine-join queries of _calculate_snapshot). -/
def specialSumAsOf (l : Ledger) (asOf : Date) (st : SpecialType) : ℤ :=
  ((l.transactions.filter (fun t => t.date ≤ asOf)).map
    (fun t => lineTypeSum t st)).sum

/-- The credit-card loop of _calculate_snapshot.  Note the source
    REASSIGNS credit_card_balance inside the per-account loop instead of
    accumulating, so the final value reflects only the last credit-card
    account in the list (0 when there is none). -/
def creditCardTotal (l : Ledger) (asOf : Date) : ℤ :=
  l.accounts.foldl
    (fun acc a =>
      if a.type = AccountType.CREDIT_CARD then
        (let bal := accountBalanceAsOf l a asOf
         if bal < 0 then -bal else 0)
      else acc)
    0

/-- The per-account credit-card detail rows (id, balance, liability)
    appended by the same loop; each row's liability is computed from the
    just-reassigned credit_card_balance, i.e. per account. -/
def creditCardRows (l : Ledger) (asOf : Date) : List (ℕ × ℤ × ℤ) :=
  (l.accounts.filter (fun a => a.type = AccountType.CREDIT_CARD)).map
    (fun a =>
      let bal := accountBalanceAsOf l a asOf
      (a.id, bal, if bal < 0 then -bal else 0))

def taxCollectedAsOf (l : Ledger) (asOf : Date) : ℤ :=
  ((l.transactions.filter
      (fun t => t.date ≤ asOf ∧ t.direction = TransactionDirection.IN)).map
    (·.tax_amount)).sum

/-- tax paid before the TAX_PAYMENT lines are added: OUT-direction
    tax amounts (no positivity filter here, unlike the tax report). -/
def taxPaidTxnAsOf (l : Ledger) (asOf : Date) : ℤ :=
  ((l.transactions.filter
      (fun t => t.date ≤ asOf ∧ t.direction = TransactionDirection.OUT)).map
    (·.tax_amount)).sum

/-- _calculate_net_profit_ytd: category-line sums from Jan 1 of the year
    through the as-of date; the loop classifies each truthy category_id
    through an if / elif / elif chain over the three id buckets. -/
def netProfitYTD (l : Ledger) (year : ℤ) (asOf : Date) : ℤ :=
  let income_ids := (l.categories.filter (fun c => c.type = CategoryType.INCOME)).map (·.id)
  let cogs_ids := (l.categories.filter (fun c => c.type = CategoryType.COGS)).map (·.id)
  let expense_ids := (l.categories.filter (fun c => c.type = CategoryType.EXPENSE)).map (·.id)
  let lines :=
    (l.transactions.filter
        (fun t => Date.mk year 1 1 ≤ t.date ∧ t.date ≤ asOf)).flatMap (·.lines)
  let income :=
    ((lines.filter (fun ln =>
        match ln.category_id with
        | some cid => cid ≠ 0 ∧ cid ∈ income_ids
        | none => False)).map (·.amount)).sum
  let cogs :=
    ((lines.filter (fun ln =>
        match ln.category_id with
        | some cid => cid ≠ 0 ∧ cid ∉ income_ids ∧ cid ∈ cogs_ids
        | none => False)).map (·.amount)).sum
  let expenses :=
    ((lines.filter (fun ln =>
        match ln.category_id with
        | some cid => cid ≠ 0 ∧ cid ∉ income_ids ∧ cid ∉ cogs_ids ∧ cid ∈ expense_ids
        | none => False)).map (·.amount)).sum
  income - cogs - expenses

/-- The per-transaction contribution of one transaction's lines to
    _calculate_net_profit_ytd's income - cogs - expenses, with the same
    truthiness test and if / elif / elif bucket classification. -/
def profitContribTxn (cats : List Category) (t : Transaction) : ℤ :=
  let income_ids := (cats.filter (fun c => c.type = CategoryType.INCOME)).map (·.id)
  let cogs_ids := (cats.filter (fun c => c.type = CategoryType.COGS)).map (·.id)
  let expense_ids := (cats.filter (fun c => c.type = CategoryType.EXPENSE)).map (·.id)
  ((t.lines.filter (fun ln =>
      match ln.category_id with
      | some cid => cid ≠ 0 ∧ cid ∈ income_ids
      | none => False)).map (·.amount)).sum
  - ((t.lines.filter (fun ln =>
      match ln.category_id with
      | some cid => cid ≠ 0 ∧ cid ∉ income_ids ∧ cid ∈ cogs_ids
      | none => False)).map (·.amount)).sum
  - ((t.lines.filter (fun ln =>
      match ln.category_id with
      | some cid => cid ≠ 0 ∧ cid ∉ income_ids ∧ cid ∉ cogs_ids ∧ cid ∈ expense_ids
      | none => False)).map (·.amount)).sum

/-- _calculate_opening_retained_earnings: bank opening balances minus
    credit-card opening balances. -/
def openingRetainedEarnings (l : Ledger) : ℤ :=
  l.accounts.foldl
    (fun acc a =>
      if a.type = AccountType.BANK then acc + a.opening_balance
      else if a.type = AccountType.CREDIT_CARD then acc - a.opening_balance
      else acc)
    0

structure Snapshot where
  assets_total : ℤ
  bank_total : ℤ
  asset_purchases : ℤ
  liabilities_total : ℤ
  credit_cards_total : ℤ
  credit_cards : List (ℕ × ℤ × ℤ)
  loans_net : ℤ
  tax_payable_vat : ℤ
  income_tax : ℤ
  payroll_tax : ℤ
  equity_total : ℤ
  capital : ℤ
  retained_earnings : ℤ
  current_year_profit : ℤ
  drawings : ℤ
deriving DecidableEq

/-- BalanceSheetService._calculate_snapshot. -/
def calculate_snapshot (l : Ledger) (year : ℤ) (asOf : Date)
    (opening_retained_earnings : ℤ) : Snapshot :=
  let bank_balance := bankBalanceTotal l asOf
  let inventory_value : ℤ := 0
  let asset_purchases := specialSumAsOf l asOf SpecialType.ASSET_PURCHASE
  let total_assets := bank_balance + inventory_value + asset_purchases
  let credit_card_balance := creditCardTotal l asOf
  let loans := specialSumAsOf l asOf SpecialType.LOAN_IN
  let loan_repayments := specialSumAsOf l asOf SpecialType.LOAN_REPAYMENT
  let net_loans := loans - loan_repayments
  let tax_collected := taxCollectedAsOf l asOf
  let tax_paid := taxPaidTxnAsOf l asOf + specialSumAsOf l asOf SpecialType.TAX_PAYMENT
  let tax_payable0 := tax_collected - tax_paid
  let tax_payable := if tax_payable0 < 0 then 0 else tax_payable0
  let income_tax_paid := specialSumAsOf l asOf SpecialType.INCOME_TAX
  let payroll_tax_paid := specialSumAsOf l asOf SpecialType.PAYROLL_TAX
  let total_liabilities :=
    credit_card_balance + net_loans + tax_payable + income_tax_paid + payroll_tax_paid
  let capital := specialSumAsOf l asOf SpecialType.CAPITAL
  let drawings := specialSumAsOf l asOf SpecialType.DRAWINGS
  let current_year_profit := netProfitYTD l year asOf
  let retained_earnings := opening_retained_earnings + current_year_profit
  let total_equity := capital + retained_earnings - drawings
  { assets_total := total_assets
    bank_total := bank_balance
    asset_purchases := asset_purchases
    liabilities_total := total_liabilities
    credit_cards_total := credit_card_balance
    credit_cards := creditCardRows l asOf
    loans_net := net_loans
    tax_payable_vat := tax_payable
    income_tax := income_tax_paid
    payroll_tax := payroll_tax_paid
    equity_total := total_equity
    capital := capital
    retained_earnings := retained_earnings
    current_year_profit := current_year_profit
    drawings := drawings }

structure BSValidationEntry where
  month : ℕ
  net_assets : ℤ
  equity : ℤ
  balanced : Bool
deriving DecidableEq

structure BSReport where
  months : List (ℕ × Snapshot)
  validation : List BSValidationEntry
deriving DecidableEq

/-- The per-ledger body of BalanceSheetService.generate_report: monthly
    snapshots at each month's as-of date, then the per-month validation
    entries net_assets = assets.total - liabilities.total compared with
    equity.total. -/
def bsReportOfLedger (l : Ledger) (year : ℤ) : BSReport :=
  let opening := openingRetainedEarnings l
  let ms := (List.range 12).map
    (fun i => (i + 1, calculate_snapshot l year (asOfDate year (i + 1)) opening))
  { months := ms
    validation := ms.map
      (fun p =>
        { month := p.1
          net_assets := p.2.assets_total - p.2.liabilities_total
          equity := p.2.equity_total
          balanced := p.2.assets_total - p.2.liabilities_total = p.2.equity_total }) }

/-- BalanceSheetService.generate_report: raises ValueError (not found)
    when the business does not exist, otherwise computes the report. -/
def BS_generate_report (s : Store) (business_id : ℕ) (year : ℤ) :
    Except String BSReport :=
  if business_id ∈ s.business_ids then
    Except.ok (bsReportOfLedger (s.ledgerOf business_id) year)
  else
    Except.error ("not found")

/-! ## Transfer validation (validation.py, TransferValidationService) -/

structure TransferMonthResult where
  month : ℕ
  is_balanced : Bool
  total_transfers_out : ℤ
  total_transfers_in : ℤ
  difference : ℤ
  transfers_out : List (ℕ × ℕ × ℤ)
  transfers_in : List (ℕ × ℕ × ℤ)
deriving DecidableEq

/-- The transfer-line query of _validate_month: (transaction_id, line)
    pairs for lines whose special type is TRANSFER_IN or TRANSFER_OUT and
    whose parent transaction's date is in the month window. -/
def transferLines (l : Ledger) (year : ℤ) (month : ℕ) : List (ℕ × TransactionLine) :=
  ((l.transactions.filter (fun t => inMonthWindow year month t.date)).flatMap
      (fun t => t.lines.map (fun ln => (t.id, ln)))).filter
    (fun p => p.2.special_type = some SpecialType.TRANSFER_OUT ∨
              p.2.special_type = some SpecialType.TRANSFER_IN)

/-- TransferValidationService._validate_month.  The source makes one pass
    over the transfer lines, branching on the special type to accumulate
    each total and append to each list; that pass produces exactly the
    per-type filtered sums and lists below, in query order. -/
def validate_month (l : Ledger) (year : ℤ) (month : ℕ) : TransferMonthResult :=
  let tls := transferLines l year month
  let outs := tls.filter (fun p => p.2.special_type = some SpecialType.TRANSFER_OUT)
  let ins := tls.filter (fun p => p.2.special_type = some SpecialType.TRANSFER_IN)
  let total_out := (outs.map (fun p => p.2.amount)).sum
  let total_in := (ins.map (fun p => p.2.amount)).sum
  let difference := total_out - total_in
  { month := month
    is_balanced := difference = 0
    total_transfers_out := total_out
    total_transfers_in := total_in
    difference := difference
    transfers_out := outs.map (fun p => (p.1, p.2.id, p.2.amount))
    transfers_in := ins.map (fun p => (p.1, p.2.id, p.2.amount)) }

/-! ## Error highlighting (validation.py, ErrorHighlightingService).

The stale-reconciliation check reads datetime.date.today() inside
_check_unreconciled_transaction; the shallow embedding necessarily lifts
that wall-clock read into the explicit `today` argument threaded below —
the source has no such parameter. -/

inductive ValidationErrorType where
  | missing_allocation
  | allocation_mismatch
  | unbalanced_transfer
  | missing_tax_rate
  | unreconciled_transaction
deriving DecidableEq

inductive ValidationSeverity where
  | error
  | warning
  | info
deriving DecidableEq

/-- One finding dict.  Besides the identifying triple, the source's
    stale-reconciliation warning carries the clock-dependent
    days_unreconciled payload (the stale message string repeats that same
    day count; the remaining dict keys — account_id, date, gross_amount,
    the mismatch amounts — are functions of the transaction alone). -/
structure Finding where
  transaction_id : ℕ
  error_type : ValidationErrorType
  severity : ValidationSeverity
  days_unreconciled : Option ℤ
deriving DecidableEq

/-- _check_missing_allocation. -/
def check_missing_allocation (t : Transaction) : Option Finding :=
  if t.lines = [] then
    some { transaction_id := t.id
           error_type := ValidationErrorType.missing_allocation
           severity := ValidationSeverity.error
           days_unreconciled := none }
  else none

/-- _check_allocation_mismatch: returns early (no finding) when the
    transaction has no lines; a net_amount of exactly 0 is falsy in
    Python, in which case gross - tax is used as the expected amount. -/
def check_allocation_mismatch (t : Transaction) : Option Finding :=
  if t.lines = [] then none
  else
    let total_allocated := (t.lines.map (·.amount)).sum
    let expected := if t.net_amount = 0 then t.gross_amount - t.tax_amount else t.net_amount
    if 1 < (total_allocated - expected).natAbs then
      some { transaction_id := t.id
             error_type := ValidationErrorType.allocation_mismatch
             severity := ValidationSeverity.error
             days_unreconciled := none }
    else none

/-- _check_transfer_balance: a warning when the transaction's lines are
    nonempty and entirely transfer-type lines. -/
def check_transfer_balance (t : Transaction) : Option Finding :=
  let tls := t.lines.filter
    (fun ln => ln.special_type = some SpecialType.TRANSFER_IN ∨
               ln.special_type = some SpecialType.TRANSFER_OUT)
  if tls ≠ [] ∧ tls.length = t.lines.length then
    some { transaction_id := t.id
           error_type := ValidationErrorType.unbalanced_transfer
           severity := ValidationSeverity.warning
           days_unreconciled := none }
  else none

/-- _check_unreconciled_transaction: warn when not reconciled and
    days_old = (date.today() - txn.date).days > 30, with days_old carried
    in the warning's days_unreconciled payload.  `today` is the lifted
    clock read. -/
def check_unreconciled_transaction (today : Date) (t : Transaction) : Option Finding :=
  if ¬t.is_reconciled ∧ 30 < today.toDays - t.date.toDays then
    some { transaction_id := t.id
           error_type := ValidationErrorType.unreconciled_transaction
           severity := ValidationSeverity.warning
           days_unreconciled := some (today.toDays - t.date.toDays) }
  else none

structure TransactionValidationResult where
  total_transactions_checked : ℕ
  error_count : ℕ
  warning_count : ℕ
  errors : List Finding
  warnings : List Finding
deriving DecidableEq

/-- The transaction scope of validate_transactions: `if year:` and
    `if month and year:` are Python truthiness tests, so a filter applies
    only when the optional value is present and nonzero. -/
def validationScope (l : Ledger) (year : Option ℤ) (month : Option ℕ) :
    List Transaction :=
  let afterYear :=
    match year with
    | some y => if y ≠ 0 then l.transactions.filter (fun t => t.date.year = y)
                else l.transactions
    | none => l.transactions
  match month, year with
  | some m, some y =>
    if m ≠ 0 ∧ y ≠ 0 then afterYear.filter (fun t => t.date.month = m) else afterYear
  | _, _ => afterYear

/-- ErrorHighlightingService.validate_transactions: the per-transaction
    loop appends the missing-allocation then mismatch findings to the
    errors list and the transfer then stale findings to the warnings
    list.  The source has no as_of/today parameter: `today` embeds the
    datetime.date.today() call made inside the stale check. -/
def validate_transactions (l : Ledger) (year : Option ℤ) (month : Option ℕ)
    (today : Date) : TransactionValidationResult :=
  let txns := validationScope l year month
  let errors := txns.flatMap
    (fun t => (check_missing_allocation t).toList ++ (check_allocation_mismatch t).toList)
  let warnings := txns.flatMap
    (fun t => (check_transfer_balance t).toList ++
              (check_unreconciled_transaction today t).toList)
  { total_transactions_checked := txns.length
    error_count := errors.length
    warning_count := warnings.length
    errors := errors
    warnings := warnings }

/-! ## Spec-side definitions used to compare code behaviour with the
spec's wording, and hypothesis predicates for the invariant theorems. -/

/-- Per-transaction tax collected on an IN transaction (0 otherwise). -/
def txnTaxIn (t : Transaction) : ℤ :=
  if t.direction = TransactionDirection.IN then t.tax_amount else 0

/-- Per-transaction tax paid on an OUT transaction (0 otherwise). -/
def txnTaxOut (t : Transaction) : ℤ :=
  if t.direction = TransactionDirection.OUT then t.tax_amount else 0

/-- Modelled from the spec: the credit-card component of liabilities is
    the sum, over all credit-card accounts, of each account's negative
    as-of balance as a positive magnitude (zero when non-negative).
    It exists only to be compared with the code's creditCardTotal. -/
def specCreditCardLiabilitySum (l : Ledger) (asOf : Date) : ℤ :=
  ((l.accounts.filter (fun a => a.type = AccountType.CREDIT_CARD)).map
    (fun a =>
      let bal := accountBalanceAsOf l a asOf
      if bal < 0 then -bal else 0)).sum

/-- The spec's monthly transfer-out total: Σ TRANSFER_OUT line amounts
    over the month's transactions, written as a per-transaction double
    sum (independent of validate_month's single-pass shape). -/
def specTransferOutSum (l : Ledger) (year : ℤ) (month : ℕ) : ℤ :=
  ((l.transactions.filter (fun t => inMonthWindow year month t.date)).map
    (fun t => lineTypeSum t SpecialType.TRANSFER_OUT)).sum

/-- The spec's monthly transfer-in total. -/
def specTransferInSum (l : Ledger) (year : ℤ) (month : ℕ) : ℤ :=
  ((l.transactions.filter (fun t => inMonthWindow year month t.date)).map
    (fun t => lineTypeSum t SpecialType.TRANSFER_IN)).sum

/-- Direction-appropriate allocation-line discipline, the well-formedness
    under which the balance-sheet equation is provable: an inflow line is
    an INCOME-category allocation or a CAPITAL / LOAN_IN / TRANSFER_IN
    special line; an outflow line is a COGS- or EXPENSE-category
    allocation or a TRANSFER_OUT / ASSET_PURCHASE / TAX_PAYMENT /
    LOAN_REPAYMENT / DRAWINGS special line; exactly one discriminator is
    set (the data-model invariant on TransactionLine). -/
def lineOK (cats : List Category) (dir : TransactionDirection)
    (ln : TransactionLine) : Bool :=
  match dir with
  | .IN =>
    match ln.category_id, ln.special_type with
    | some cid, none => cats.any (fun c => c.id = cid ∧ c.type = CategoryType.INCOME)
    | none, some st =>
      st ∈ [SpecialType.CAPITAL, SpecialType.LOAN_IN, SpecialType.TRANSFER_IN]
    | _, _ => false
  | .OUT =>
    match ln.category_id, ln.special_type with
    | some cid, none =>
      cats.any (fun c => c.id = cid ∧
        (c.type = CategoryType.COGS ∨ c.type = CategoryType.EXPENSE))
    | none, some st =>
      st ∈ [SpecialType.TRANSFER_OUT, SpecialType.ASSET_PURCHASE,
            SpecialType.TAX_PAYMENT, SpecialType.LOAN_REPAYMENT,
            SpecialType.DRAWINGS]
    | _, _ => false

/-- A line contributes to key k of a bucket's by-category dict exactly
    when the bucketAccum loop adds its amount under that key. -/
def contributes (cats : List Category) (ln : TransactionLine) (k : String) : Bool :=
  match ln.category_id with
  | some cid => cid ≠ 0 ∧ cid ∈ cats.map (·.id) ∧ lineCode cats cid = k
  | none => false

/-- The by-category dict of the month structure for a given category type. -/
def categoryMapOf (ct : CategoryType) (mp : MonthPL) : List (String × ℤ) :=
  match ct with
  | .INCOME => mp.income_by_category
  | .COGS => mp.cogs_by_category
  | .EXPENSE => mp.expenses_by_category

/-- The all-zero month structure (what an empty transaction set yields). -/
def zeroMonthPL : MonthPL :=
  { income_total := 0, income_by_category := []
    cogs_total := 0, cogs_by_category := [], inventory_adjustment := 0
    expenses_total := 0, expenses_by_category := []
    gross_profit := 0, net_profit := 0 }

/-! ## Concrete fixtures for counterexamples and witnesses -/

/-- A single unallocated inflow: assets grow, equity does not. -/
def cexBalanceLedger : Ledger :=
  { accounts := [⟨1, AccountType.BANK, 0⟩]
    categories := []
    transactions :=
      [⟨1, 1, ⟨2026, 1, 15⟩, TransactionDirection.IN, 10000, 0, 10000, false, []⟩] }

/-- A well-formed ledger: an income inflow of 108.10 (tax 8.10) in
    January and an expense outflow of 54.05 (tax 4.05) in February,
    both fully allocated. -/
def okLedger : Ledger :=
  { accounts := [⟨1, AccountType.BANK, 100000⟩]
    categories :=
      [⟨1, "head_1", CategoryType.INCOME⟩, ⟨12, "head_12", CategoryType.EXPENSE⟩]
    transactions :=
      [⟨1, 1, ⟨2026, 1, 10⟩, TransactionDirection.IN, 10810, 810, 10000, true,
        [⟨1, some 1, none, 10000⟩]⟩,
       ⟨2, 1, ⟨2026, 2, 5⟩, TransactionDirection.OUT, 5405, 405, 5000, true,
        [⟨2, some 12, none, 5000⟩]⟩] }

/-- Two credit-card accounts: balances -100.00 and +50.00. -/
def cexCCLedger : Ledger :=
  { accounts := [⟨1, AccountType.CREDIT_CARD, -10000⟩, ⟨2, AccountType.CREDIT_CARD, 5000⟩]
    categories := []
    transactions := [] }

/-- TRANSFER_OUT 2000.00 from account 1 and TRANSFER_IN 1500.00 to
    account 2, both in January (spec's concrete scenario 5). -/
def transferLedger : Ledger :=
  { accounts := [⟨1, AccountType.BANK, 0⟩, ⟨2, AccountType.BANK, 0⟩]
    categories := []
    transactions :=
      [⟨1, 1, ⟨2026, 1, 10⟩, TransactionDirection.OUT, 200000, 0, 200000, false,
        [⟨1, none, some SpecialType.TRANSFER_OUT, 200000⟩]⟩,
       ⟨2, 2, ⟨2026, 1, 11⟩, TransactionDirection.IN, 150000, 0, 150000, false,
        [⟨2, none, some SpecialType.TRANSFER_IN, 150000⟩]⟩] }

/-- One unreconciled, unallocated transaction dated 2026-01-20. -/
def staleLedger : Ledger :=
  { accounts := [⟨1, AccountType.BANK, 0⟩]
    categories := []
    transactions :=
      [⟨1, 1, ⟨2026, 1, 20⟩, TransactionDirection.IN, 10000, 0, 10000, false, []⟩] }

def emptyLedger : Ledger := ⟨[], [], []⟩

/-- A store with no businesses at all. -/
def missingStore : Store := ⟨[], fun _ => emptyLedger⟩

/-- A store in which business 1 exists but has no data. -/
def presentStore : Store := ⟨[1], fun _ => emptyLedger⟩

/-! ## Helper lemmas: integer list sums -/

theorem sum_map_zero {α : Type} (L : List α) : (L.map (fun _ => (0 : ℤ))).sum = 0 := by
  induction L with
  | nil => rfl
  | cons x xs ih => simp [ih]

theorem sum_map_add {α : Type} (L : List α) (f g : α → ℤ) :
    (L.map (fun x => f x + g x)).sum = (L.map f).sum + (L.map g).sum := by
  induction L with
  | nil => rfl
  | cons x xs ih => simp [ih]; ring

theorem sum_map_neg {α : Type} (L : List α) (f : α → ℤ) :
    (L.map (fun x => -f x)).sum = -(L.map f).sum := by
  induction L with
  | nil => rfl
  | cons x xs ih => simp [ih]; ring

theorem sum_map_sub {α : Type} (L : List α) (f g : α → ℤ) :
    (L.map (fun x => f x - g x)).sum = (L.map f).sum - (L.map g).sum := by
  induction L with
  | nil => rfl
  | cons x xs ih => simp [ih]; ring

theorem sum_filter_eq_sum_ite {α : Type} (L : List α) (p : α → Bool) (f : α → ℤ) :
    ((L.filter p).map f).sum = (L.map (fun x => if p x then f x else 0)).sum := by
  induction L with
  | nil => rfl
  | cons x xs ih =>
    by_cases hx : p x = true
    · simp [List.filter_cons, hx, ih]
    · simp [List.filter_cons, hx, ih]

theorem sum_map_congr {α : Type} {L : List α} {f g : α → ℤ}
    (h : ∀ x ∈ L, f x = g x) : (L.map f).sum = (L.map g).sum := by
  rw [List.map_congr_left h]

theorem sum_map_flatMap {α β : Type} (L : List α) (f : α → List β) (g : β → ℤ) :
    ((L.flatMap f).map g).sum = (L.map (fun x => ((f x).map g).sum)).sum := by
  induction L with
  | nil => rfl
  | cons x xs ih => simp [List.flatMap_cons, ih]

theorem filter_flatMap {α β : Type} (L : List α) (f : α → List β) (p : β → Bool) :
    (L.flatMap f).filter p = L.flatMap (fun x => (f x).filter p) := by
  induction L with
  | nil => rfl
  | cons x xs ih => simp [List.flatMap_cons, List.filter_append, ih]

theorem sum_over_accounts {β : Type} (A : List β) (T : List Transaction)
    (key : β → ℕ) (g : Transaction → ℤ) :
    (A.map (fun a => ((T.filter (fun t => t.account_id = key a)).map g).sum)).sum
      = (T.map (fun t => ((A.countP (fun a => t.account_id = key a) : ℤ)) * g t)).sum := by
  induction A with
  | nil => simp [sum_map_zero]
  | cons a As ih =>
    simp only [List.map_cons, List.sum_cons, ih]
    rw [sum_filter_eq_sum_ite]
    rw [← sum_map_add]
    apply sum_map_congr
    intro t _
    by_cases hm : t.account_id = key a
    · simp [List.countP_cons, hm]
      ring
    · simp [List.countP_cons, hm]

/-! ## Helper lemmas: rounding -/

theorem roundHE_nonneg (x : ℚ) (hx : 0 ≤ x) : 0 ≤ roundHalfEvenInt x := by
  unfold roundHalfEvenInt
  have h0 : (0 : ℤ) ≤ ⌊x⌋ := Int.floor_nonneg.mpr hx
  split
  · exact h0
  · split
    · omega
    · split <;> omega

theorem roundHE_le_intBound (x : ℚ) (m : ℤ) (hx : x ≤ (m : ℚ)) :
    roundHalfEvenInt x ≤ m := by
  unfold roundHalfEvenInt
  have hfl : ⌊x⌋ ≤ m := by
    calc ⌊x⌋ ≤ ⌊(m : ℚ)⌋ := Int.floor_le_floor hx
    _ = m := Int.floor_intCast m
  have hfl2 : (⌊x⌋ : ℚ) ≤ x := Int.floor_le x
  split
  · exact hfl
  · rename_i h1
    push_neg at h1
    have hlt : (⌊x⌋ : ℚ) + 1/2 ≤ x := by linarith
    have : (⌊x⌋ : ℚ) < (m : ℚ) := by linarith
    have : ⌊x⌋ < m := by exact_mod_cast this
    split
    · omega
    · split <;> omega

theorem roundHE_abs_le (x : ℚ) : |x - (roundHalfEvenInt x : ℚ)| ≤ 1/2 := by
  unfold roundHalfEvenInt
  have h0 : (⌊x⌋ : ℚ) ≤ x := Int.floor_le x
  have h1 : x < (⌊x⌋ : ℚ) + 1 := Int.lt_floor_add_one x
  rw [abs_le]
  split
  · rename_i h2
    constructor <;> [linarith; linarith]
  · rename_i h2
    push_neg at h2
    split
    · rename_i h3
      push_cast
      constructor <;> [linarith; linarith]
    · rename_i h3
      push_neg at h3
      have hhalf : x - (⌊x⌋ : ℚ) = 1/2 := le_antisymm h3 h2
      split
      · constructor <;> [linarith; linarith]
      · push_cast
        constructor <;> [linarith; linarith]

theorem roundHE_tie_even (x : ℚ)
    (h : |x - (roundHalfEvenInt x : ℚ)| = 1/2) : roundHalfEvenInt x % 2 = 0 := by
  have h0 : (⌊x⌋ : ℚ) ≤ x := Int.floor_le x
  have h1 : x < (⌊x⌋ : ℚ) + 1 := Int.lt_floor_add_one x
  unfold roundHalfEvenInt at h ⊢
  split at h
  · rename_i h2
    rw [abs_of_nonneg (by linarith)] at h
    exfalso
    linarith
  · rename_i h2
    push_neg at h2
    split at h
    · rename_i h3
      push_cast at h
      rw [abs_of_nonpos (by linarith)] at h
      exfalso
      linarith
    · rename_i h3
      push_neg at h3
      have hhalf : x - (⌊x⌋ : ℚ) = 1/2 := le_antisymm h3 h2
      rw [if_neg (by rw [hhalf]; norm_num), if_neg (by rw [hhalf]; norm_num)]
      by_cases he : ⌊x⌋ % 2 = 0
      · rw [if_pos he]
        exact he
      · rw [if_neg he]
        omega

/-! ## Helper lemmas: association lists (Python dict embedding) -/

theorem lookupKey_upsertAdd_self (m : List (String × ℤ)) (k : String) (v : ℤ) :
    lookupKey (upsertAdd m k v) k = some ((lookupKey m k).getD 0 + v) := by
  induction m with
  | nil => simp [upsertAdd, lookupKey]
  | cons kv rest ih =>
    by_cases h : kv.1 = k
    · simp [upsertAdd, lookupKey, h]
    · simp [upsertAdd, lookupKey, h, ih]

theorem lookupKey_upsertAdd_other (m : List (String × ℤ)) (k : String) (v : ℤ)
    (k' : String) (h : k' ≠ k) :
    lookupKey (upsertAdd m k v) k' = lookupKey m k' := by
  have h' : k ≠ k' := Ne.symm h
  induction m with
  | nil => simp [upsertAdd, lookupKey, h']
  | cons kv rest ih =>
    by_cases hk : kv.1 = k
    · simp [upsertAdd, lookupKey, hk, h']
    · by_cases hk' : kv.1 = k'
      · simp [upsertAdd, lookupKey, hk, hk', h]
      · simp [upsertAdd, lookupKey, hk, hk', ih]

theorem lookupKey_isSome_iff (m : List (String × ℤ)) (k : String) :
    (lookupKey m k).isSome = true ↔ k ∈ m.map (·.1) := by
  induction m with
  | nil => simp [lookupKey]
  | cons kv rest ih =>
    by_cases h : kv.1 = k
    · simp [lookupKey, h]
    · have h' : ¬(k = kv.1) := fun he => h he.symm
      simp [lookupKey, h, ih, h']

theorem keys_upsertAdd (m : List (String × ℤ)) (k : String) (v : ℤ) :
    (upsertAdd m k v).map (·.1)
      = if k ∈ m.map (·.1) then m.map (·.1) else m.map (·.1) ++ [k] := by
  induction m with
  | nil => simp [upsertAdd]
  | cons kv rest ih =>
    by_cases h : kv.1 = k
    · simp [upsertAdd, h]
    · have h' : ¬(k = kv.1) := fun he => h he.symm
      simp only [upsertAdd, if_neg h, List.map_cons, ih, List.mem_cons]
      by_cases hm : k ∈ rest.map (·.1)
      · simp [hm, h']
      · simp [hm, h']

theorem nodup_keys_upsertAdd (m : List (String × ℤ)) (k : String) (v : ℤ)
    (h : (m.map (·.1)).Nodup) : ((upsertAdd m k v).map (·.1)).Nodup := by
  rw [keys_upsertAdd]
  by_cases hm : k ∈ m.map (·.1)
  · simpa [hm]
  · simp only [if_neg hm]
    rw [List.nodup_append]
    exact ⟨h, List.nodup_singleton k, by simpa using fun hk => hm hk⟩

theorem bucketAccum_lookup_gen (cats : List Category) (k : String)
    (lines : List TransactionLine) :
    ∀ init : ℤ × List (String × ℤ),
    lookupKey (lines.foldl (bucketStep cats) init).2 k
      = (if (lines.filter (fun ln => contributes cats ln k)) = [] then lookupKey init.2 k
         else some ((lookupKey init.2 k).getD 0 +
           ((lines.filter (fun ln => contributes cats ln k)).map (·.amount)).sum)) := by
  induction lines with
  | nil => intro init; simp
  | cons ln rest ih =>
    intro init
    rw [List.foldl_cons]
    cases hcid : ln.category_id with
    | none =>
      have hcf : contributes cats ln k = false := by simp [contributes, hcid]
      have hfil : (ln :: rest).filter (fun ln => contributes cats ln k)
          = rest.filter (fun ln => contributes cats ln k) := by
        simp [List.filter_cons, hcf]
      have hstep : bucketStep cats init ln = init := by simp [bucketStep, hcid]
      rw [hfil, hstep]
      exact ih init
    | some cid =>
      by_cases hc : cid ≠ 0 ∧ cid ∈ cats.map (·.id)
      · by_cases hk : lineCode cats cid = k
        · have hct : contributes cats ln k = true := by
            simp [contributes, hcid, hc.1, hc.2, hk]
          have hfil : (ln :: rest).filter (fun ln => contributes cats ln k)
              = ln :: rest.filter (fun ln => contributes cats ln k) := by
            simp [List.filter_cons, hct]
          have hstep : bucketStep cats init ln
              = (init.1 + ln.amount, upsertAdd init.2 k ln.amount) := by
            simp [bucketStep, hcid, hc, hk]
          rw [hfil, hstep, ih]
          have hself := lookupKey_upsertAdd_self init.2 k ln.amount
          by_cases hrest : rest.filter (fun ln => contributes cats ln k) = []
          · rw [hrest, if_pos rfl, if_neg (by simp)]
            rw [hself]
            simp
          · rw [if_neg hrest, if_neg (by simp)]
            rw [hself]
            simp only [List.map_cons, List.sum_cons, Option.getD_some]
            congr 1
            ring
        · have hcf : contributes cats ln k = false := by
            simp [contributes, hcid, hk]
          have hfil : (ln :: rest).filter (fun ln => contributes cats ln k)
              = rest.filter (fun ln => contributes cats ln k) := by
            simp [List.filter_cons, hcf]
          have hstep : bucketStep cats init ln
              = (init.1 + ln.amount, upsertAdd init.2 (lineCode cats cid) ln.amount) := by
            simp [bucketStep, hcid, hc]
          rw [hfil, hstep, ih]
          have hother := lookupKey_upsertAdd_other init.2 (lineCode cats cid) ln.amount k
            (fun he => hk he.symm)
          simp only [hother]
      · have hcf : contributes cats ln k = false := by
          rcases (not_and_or.mp hc) with h0 | h1
          · simp [contributes, hcid, not_not.mp h0]
          · simp [contributes, hcid, h1]
        have hfil : (ln :: rest).filter (fun ln => contributes cats ln k)
            = rest.filter (fun ln => contributes cats ln k) := by
          simp [List.filter_cons, hcf]
        have hstep : bucketStep cats init ln = init := by
          simp only [bucketStep, hcid]
          rw [if_neg hc]
        rw [hfil, hstep]
        exact ih init

theorem bucketAccum_lookup (cats : List Category) (lines : List TransactionLine)
    (k : String) :
    lookupKey (bucketAccum cats lines).2 k
      = (if (lines.filter (fun ln => contributes cats ln k)) = [] then none
         else some (((lines.filter (fun ln => contributes cats ln k)).map (·.amount)).sum)) := by
  rw [bucketAccum, bucketAccum_lookup_gen]
  by_cases h : lines.filter (fun ln => contributes cats ln k) = []
  · simp [h, lookupKey]
  · simp [h, lookupKey]

theorem bucketAccum_keys_nodup (cats : List Category) (lines : List TransactionLine) :
    (((bucketAccum cats lines).2).map (·.1)).Nodup := by
  rw [bucketAccum]
  have gen : ∀ (ls : List TransactionLine) (init : ℤ × List (String × ℤ)),
      ((init.2).map (·.1)).Nodup → (((ls.foldl (bucketStep cats) init).2).map (·.1)).Nodup := by
    intro ls
    induction ls with
    | nil => intro init h; exact h
    | cons ln rest ih =>
      intro init h
      rw [List.foldl_cons]
      apply ih
      cases hcid : ln.category_id with
      | none => simpa [bucketStep, hcid] using h
      | some cid =>
        by_cases hc : cid ≠ 0 ∧ cid ∈ cats.map (·.id)
        · have : bucketStep cats init ln
              = (init.1 + ln.amount, upsertAdd init.2 (lineCode cats cid) ln.amount) := by
            simp [bucketStep, hcid, hc]
          rw [this]
          exact nodup_keys_upsertAdd _ _ _ h
        · have : bucketStep cats init ln = init := by
            simp only [bucketStep, hcid]
            rw [if_neg hc]
          rw [this]
          exact h
  exact gen lines (0, []) (by simp)

theorem addBucket_lookup (k : String) (m : List (String × ℤ)) :
    ∀ acc : List (String × ℤ), (m.map (·.1)).Nodup →
    lookupKey (addBucket acc m) k
      = (match lookupKey m k with
         | some v => some ((lookupKey acc k).getD 0 + v)
         | none => lookupKey acc k) := by
  induction m with
  | nil => intro acc _; simp [addBucket, lookupKey]
  | cons kv rest ih =>
    intro acc hnd
    have hnd' : (rest.map (·.1)).Nodup := (List.nodup_cons.mp hnd).2
    have hk1 : kv.1 ∉ rest.map (·.1) := (List.nodup_cons.mp hnd).1
    rw [show addBucket acc (kv :: rest) = addBucket (upsertAdd acc kv.1 kv.2) rest from rfl]
    rw [ih _ hnd']
    by_cases h : kv.1 = k
    · subst h
      have hrest : lookupKey rest kv.1 = none := by
        cases ho : lookupKey rest kv.1 with
        | none => rfl
        | some v =>
          exfalso
          exact hk1 ((lookupKey_isSome_iff rest kv.1).mp (by rw [ho]; rfl))
      rw [hrest]
      simp [lookupKey, lookupKey_upsertAdd_self]
    · have h' : ¬(k = kv.1) := fun he => h he.symm
      rw [lookupKey_upsertAdd_other acc kv.1 kv.2 k h']
      simp only [lookupKey]
      rw [if_neg h]

theorem foldl_addBucket_lookup (k : String) (ms : List (List (String × ℤ))) :
    ∀ init : List (String × ℤ), (∀ m ∈ ms, (m.map (·.1)).Nodup) →
    lookupKey (ms.foldl addBucket init) k
      = (if ms.all (fun m => lookupKey m k = none) then lookupKey init k
         else some ((lookupKey init k).getD 0 +
           (ms.map (fun m => (lookupKey m k).getD 0)).sum)) := by
  induction ms with
  | nil => intro init _; simp
  | cons m rest ih =>
    intro init hnd
    rw [List.foldl_cons]
    rw [ih _ (fun x hx => hnd x (List.mem_cons_of_mem m hx))]
    have hm := addBucket_lookup k m init (hnd m (List.mem_cons_self m rest))
    cases hmk : lookupKey m k with
    | none =>
      rw [hmk] at hm
      simp only [hm]
      by_cases hall : rest.all (fun m => lookupKey m k = none)
      · simp [hall, List.all_cons, hmk]
      · simp [hall, List.all_cons, hmk]
    | some v =>
      rw [hmk] at hm
      simp only [hm]
      have hfalse : ((m :: rest).all (fun m => lookupKey m k = none)) = false := by
        simp [List.all_cons, hmk]
      rw [hfalse]
      by_cases hall : rest.all (fun m => lookupKey m k = none)
      · simp only [hall, if_pos]
        have : ∀ x ∈ rest, (fun m => (lookupKey m k).getD 0) x = (fun _ => (0:ℤ)) x := by
          intro x hx
          have := (List.all_eq_true.mp hall) x hx
          simp only [decide_eq_true_eq] at this
          simp [this]
        simp only [List.map_cons, List.sum_cons, hmk]
        rw [List.map_congr_left this]
        simp [sum_map_zero]
      · simp only [hall, if_neg, Bool.false_eq_true, not_false_iff, if_false]
        simp only [List.map_cons, List.sum_cons, hmk, Option.getD_some]
        congr 1
        ring

theorem calculate_ytd_proj (ms : List MonthPL) :
    (calculate_ytd ms).income_by_category
        = ms.foldl (fun acc m => addBucket acc m.income_by_category) []
      ∧ (calculate_ytd ms).cogs_by_category
        = ms.foldl (fun acc m => addBucket acc m.cogs_by_category) []
      ∧ (calculate_ytd ms).expenses_by_category
        = ms.foldl (fun acc m => addBucket acc m.expenses_by_category) [] := by
  have gen : ∀ (ls : List MonthPL) (init : MonthPL),
      (ls.foldl
        (fun ytd m =>
          { income_total := ytd.income_total + m.income_total
            income_by_category := addBucket ytd.income_by_category m.income_by_category
            cogs_total := ytd.cogs_total + m.cogs_total
            cogs_by_category := addBucket ytd.cogs_by_category m.cogs_by_category
            inventory_adjustment := ytd.inventory_adjustment + m.inventory_adjustment
            expenses_total := ytd.expenses_total + m.expenses_total
            expenses_by_category := addBucket ytd.expenses_by_category m.expenses_by_category
            gross_profit := ytd.gross_profit + m.gross_profit
            net_profit := ytd.net_profit + m.net_profit } : MonthPL → MonthPL → MonthPL)
        init).income_by_category
          = ls.foldl (fun acc m => addBucket acc m.income_by_category) init.income_by_category
      ∧ (ls.foldl
        (fun ytd m =>
          { income_total := ytd.income_total + m.income_total
            income_by_category := addBucket ytd.income_by_category m.income_by_category
            cogs_total := ytd.cogs_total + m.cogs_total
            cogs_by_category := addBucket ytd.cogs_by_category m.cogs_by_category
            inventory_adjustment := ytd.inventory_adjustment + m.inventory_adjustment
            expenses_total := ytd.expenses_total + m.expenses_total
            expenses_by_category := addBucket ytd.expenses_by_category m.expenses_by_category
            gross_profit := ytd.gross_profit + m.gross_profit
            net_profit := ytd.net_profit + m.net_profit })
        init).cogs_by_category
          = ls.foldl (fun acc m => addBucket acc m.cogs_by_category) init.cogs_by_category
      ∧ (ls.foldl
        (fun ytd m =>
          { income_total := ytd.income_total + m.income_total
            income_by_category := addBucket ytd.income_by_category m.income_by_category
            cogs_total := ytd.cogs_total + m.cogs_total
            cogs_by_category := addBucket ytd.cogs_by_category m.cogs_by_category
            inventory_adjustment := ytd.inventory_adjustment + m.inventory_adjustment
            expenses_total := ytd.expenses_total + m.expenses_total
            expenses_by_category := addBucket ytd.expenses_by_category m.expenses_by_category
            gross_profit := ytd.gross_profit + m.gross_profit
            net_profit := ytd.net_profit + m.net_profit })
        init).expenses_by_category
          = ls.foldl (fun acc m => addBucket acc m.expenses_by_category) init.expenses_by_category := by
    intro ls
    induction ls with
    | nil => intro init; exact ⟨rfl, rfl, rfl⟩
    | cons m rest ih =>
      intro init
      simpa using ih _
  exact gen ms _

theorem calculate_ytd_eq_foldl (ms : List MonthPL) :
    calculate_ytd ms = ms.foldl ytdStep ⟨0, [], 0, [], 0, 0, [], 0, 0⟩ := rfl

theorem foldl_ytdStep_scalar (f : MonthPL → ℤ)
    (hf : ∀ a b : MonthPL, f (ytdStep a b) = f a + f b) :
    ∀ (ls : List MonthPL) (init : MonthPL),
      f (ls.foldl ytdStep init) = f init + (ls.map f).sum := by
  intro ls
  induction ls with
  | nil => intro init; simp
  | cons m rest ih =>
    intro init
    rw [List.foldl_cons, ih (ytdStep init m), hf init m,
      List.map_cons, List.sum_cons]
    ring

theorem calculate_ytd_scalars (ms : List MonthPL) :
    (calculate_ytd ms).income_total = (ms.map (fun m => m.income_total)).sum
    ∧ (calculate_ytd ms).cogs_total = (ms.map (fun m => m.cogs_total)).sum
    ∧ (calculate_ytd ms).inventory_adjustment
        = (ms.map (fun m => m.inventory_adjustment)).sum
    ∧ (calculate_ytd ms).expenses_total = (ms.map (fun m => m.expenses_total)).sum
    ∧ (calculate_ytd ms).gross_profit = (ms.map (fun m => m.gross_profit)).sum
    ∧ (calculate_ytd ms).net_profit = (ms.map (fun m => m.net_profit)).sum := by
  refine ⟨?_, ?_, ?_, ?_, ?_, ?_⟩ <;> rw [calculate_ytd_eq_foldl]
  · simpa using foldl_ytdStep_scalar (fun m => m.income_total) (fun a b => rfl)
      ms ⟨0, [], 0, [], 0, 0, [], 0, 0⟩
  · simpa using foldl_ytdStep_scalar (fun m => m.cogs_total) (fun a b => rfl)
      ms ⟨0, [], 0, [], 0, 0, [], 0, 0⟩
  · simpa using foldl_ytdStep_scalar (fun m => m.inventory_adjustment) (fun a b => rfl)
      ms ⟨0, [], 0, [], 0, 0, [], 0, 0⟩
  · simpa using foldl_ytdStep_scalar (fun m => m.expenses_total) (fun a b => rfl)
      ms ⟨0, [], 0, [], 0, 0, [], 0, 0⟩
  · simpa using foldl_ytdStep_scalar (fun m => m.gross_profit) (fun a b => rfl)
      ms ⟨0, [], 0, [], 0, 0, [], 0, 0⟩
  · simpa using foldl_ytdStep_scalar (fun m => m.net_profit) (fun a b => rfl)
      ms ⟨0, [], 0, [], 0, 0, [], 0, 0⟩

theorem contributes_code_iff (cats bucket : List Category) (c : Category)
    (ln : TransactionLine)
    (hids : (cats.map (·.id)).Nodup) (hcodes : (cats.map (·.code)).Nodup)
    (hid0 : ∀ x ∈ cats, x.id ≠ 0)
    (hcb : c ∈ bucket) (hsub : bucket.Sublist cats) :
    contributes bucket ln c.code = true ↔ ln.category_id = some c.id := by
  have hbsub : ∀ x ∈ bucket, x ∈ cats := fun x hx => hsub.subset hx
  constructor
  · intro h
    cases hcid : ln.category_id with
    | none => simp [contributes, hcid] at h
    | some cid =>
      rw [contributes, hcid] at h
      simp only [decide_eq_true_eq] at h
      obtain ⟨hne, hmem, hcode⟩ := h
      obtain ⟨c', hc', hcid'⟩ := List.mem_map.mp hmem
      have hfind : (bucket.find? (fun x => x.id = cid)).isSome := by
        rw [List.find?_isSome]
        exact ⟨c', hc', by simp [hcid']⟩
      obtain ⟨d, hd⟩ := Option.isSome_iff_exists.mp hfind
      have hdmem : d ∈ bucket := List.mem_of_find?_eq_some hd
      have hdid : d.id = cid := by simpa using List.find?_some hd
      have hdc : d.code = c.code := by
        rw [lineCode, hd] at hcode
        simpa using hcode
      have : d = c :=
        List.inj_on_of_nodup_map hcodes (hbsub d hdmem) (hbsub c hcb) hdc
      rw [this] at hdid
      rw [hdid]
  · intro h
    rw [contributes, h]
    have hcidmem : c.id ∈ bucket.map (·.id) := List.mem_map.mpr ⟨c, hcb, rfl⟩
    have hfind : (bucket.find? (fun x => x.id = c.id)).isSome := by
      rw [List.find?_isSome]
      exact ⟨c, hcb, by simp⟩
    obtain ⟨d, hd⟩ := Option.isSome_iff_exists.mp hfind
    have hdmem : d ∈ bucket := List.mem_of_find?_eq_some hd
    have hdid : d.id = c.id := by simpa using List.find?_some hd
    have : d = c :=
      List.inj_on_of_nodup_map hids (hbsub d hdmem) (hbsub c hcb) hdid
    have hlc : lineCode bucket c.id = c.code := by
      rw [lineCode, hd, this]
      rfl
    simp [hid0 c (hbsub c hcb), hcidmem, hlc]

theorem month_map_char (l : Ledger) (year : ℤ) (month : ℕ) (c : Category)
    (hc : c ∈ l.categories)
    (hids : (l.categories.map (·.id)).Nodup)
    (hcodes : (l.categories.map (·.code)).Nodup)
    (hid0 : ∀ x ∈ l.categories, x.id ≠ 0) :
    lookupKey (categoryMapOf c.type (calculate_month l year month)) c.code = none ↔
      ∀ t ∈ l.transactions, inMonthWindow year month t.date = true →
        ∀ ln ∈ t.lines, ln.category_id ≠ some c.id := by
  have hmap : categoryMapOf c.type (calculate_month l year month)
      = (bucketAccum (l.categories.filter (fun x => x.type = c.type))
          (monthLines l year month)).2 := by
    cases hct : c.type <;> simp [categoryMapOf, calculate_month, hct]
  have hsub : (l.categories.filter (fun x => x.type = c.type)).Sublist l.categories :=
    List.filter_sublist l.categories
  have hcb : c ∈ l.categories.filter (fun x => x.type = c.type) :=
    List.mem_filter.mpr ⟨hc, by simp⟩
  rw [hmap, bucketAccum_lookup]
  have hiff : ∀ ln : TransactionLine,
      contributes (l.categories.filter (fun x => x.type = c.type)) ln c.code = true
        ↔ ln.category_id = some c.id :=
    fun ln => contributes_code_iff l.categories _ c ln hids hcodes hid0 hcb hsub
  constructor
  · intro h t ht hw ln hln hcontra
    have hmem : ln ∈ monthLines l year month := by
      rw [monthLines]
      exact List.mem_flatMap.mpr ⟨t, List.mem_filter.mpr ⟨ht, hw⟩, hln⟩
    by_cases hfil : (monthLines l year month).filter
        (fun ln => contributes (l.categories.filter (fun x => x.type = c.type)) ln c.code) = []
    · have := (List.filter_eq_nil_iff.mp hfil) ln hmem
      exact this ((hiff ln).mpr hcontra)
    · rw [if_neg hfil] at h
      exact Option.some_ne_none _ h
  · intro h
    have hfil : (monthLines l year month).filter
        (fun ln => contributes (l.categories.filter (fun x => x.type = c.type)) ln c.code) = [] := by
      rw [List.filter_eq_nil_iff]
      intro ln hmem hcon
      obtain ⟨t, htf, hln⟩ := List.mem_flatMap.mp (by rw [monthLines] at hmem; exact hmem)
      obtain ⟨ht, hw⟩ := List.mem_filter.mp htf
      exact h t ht hw ln hln ((hiff ln).mp hcon)
    rw [if_pos hfil]

theorem ytd_map_char (l : Ledger) (year : ℤ) (c : Category) :
    (lookupKey (categoryMapOf c.type (plReportOfLedger l year).ytd) c.code = none ↔
      ∀ mq ∈ (plReportOfLedger l year).months,
        lookupKey (categoryMapOf c.type mq.2) c.code = none)
    ∧ (∀ v, lookupKey (categoryMapOf c.type (plReportOfLedger l year).ytd) c.code = some v →
        v = ((plReportOfLedger l year).months.map
              (fun mq => (lookupKey (categoryMapOf c.type mq.2) c.code).getD 0)).sum) := by
  set ms := (List.range 12).map (fun i => (i + 1, calculate_month l year (i + 1))) with hms
  have hmonths : (plReportOfLedger l year).months = ms := rfl
  have hytd : (plReportOfLedger l year).ytd = calculate_ytd (ms.map (·.2)) := rfl
  have hproj := calculate_ytd_proj (ms.map (·.2))
  have hmapeq : categoryMapOf c.type (calculate_ytd (ms.map (·.2)))
      = ((ms.map (·.2)).map (categoryMapOf c.type)).foldl addBucket [] := by
    rw [List.foldl_map]
    cases hct : c.type
    · rw [categoryMapOf, hproj.1]
      simp [categoryMapOf]
    · rw [categoryMapOf, hproj.2.1]
      simp [categoryMapOf]
    · rw [categoryMapOf, hproj.2.2]
      simp [categoryMapOf]
  have hnodup : ∀ m ∈ (ms.map (·.2)).map (categoryMapOf c.type), (m.map (·.1)).Nodup := by
    intro m hm
    obtain ⟨mp, hmp, rfl⟩ := List.mem_map.mp hm
    obtain ⟨q, hq, rfl⟩ := List.mem_map.mp hmp
    obtain ⟨i, _, rfl⟩ := List.mem_map.mp hq
    have : categoryMapOf c.type (calculate_month l year (i + 1))
        = (bucketAccum (l.categories.filter (fun x => x.type = c.type))
            (monthLines l year (i + 1))).2 := by
      cases hct : c.type <;> simp [categoryMapOf, calculate_month, hct]
    rw [this]
    exact bucketAccum_keys_nodup _ _
  have hkey := foldl_addBucket_lookup c.code ((ms.map (·.2)).map (categoryMapOf c.type)) [] hnodup
  rw [hmonths, hytd, hmapeq, hkey]
  constructor
  · by_cases hall : ((ms.map (·.2)).map (categoryMapOf c.type)).all
        (fun m => lookupKey m c.code = none)
    · rw [if_pos hall]
      simp only [lookupKey, true_iff]
      intro mq hmq
      have := List.all_eq_true.mp hall (categoryMapOf c.type mq.2)
        (List.mem_map.mpr ⟨mq.2, List.mem_map.mpr ⟨mq, hmq, rfl⟩, rfl⟩)
      simpa using this
    · rw [if_neg hall]
      constructor
      · intro h
        exact absurd h (Option.some_ne_none _)
      · intro h
        exfalso
        apply hall
        rw [List.all_eq_true]
        intro m hm
        obtain ⟨mp, hmp, rfl⟩ := List.mem_map.mp hm
        obtain ⟨q, hq, rfl⟩ := List.mem_map.mp hmp
        simpa using h q hq
  · intro v hv
    by_cases hall : ((ms.map (·.2)).map (categoryMapOf c.type)).all
        (fun m => lookupKey m c.code = none)
    · rw [if_pos hall] at hv
      exact absurd hv (by simp [lookupKey])
    · rw [if_neg hall] at hv
      have hveq : v = (lookupKey ([] : List (String × ℤ)) c.code).getD 0 +
          ((((ms.map (·.2)).map (categoryMapOf c.type))).map
            (fun m => (lookupKey m c.code).getD 0)).sum := (Option.some.inj hv).symm
      rw [hveq]
      simp only [lookupKey, List.map_map, Option.getD_none]
      rw [Int.zero_add]
      rfl

/-! ## Helper lemmas: the balance-sheet accounting identity -/

theorem lineOK_not_tax_lines (cats : List Category) (dir : TransactionDirection)
    (ln : TransactionLine) (h : lineOK cats dir ln = true) :
    ln.special_type ≠ some SpecialType.INCOME_TAX ∧
      ln.special_type ≠ some SpecialType.PAYROLL_TAX := by
  rcases hcid : ln.category_id with _ | cid <;> rcases hst : ln.special_type with _ | st
  · simp
  · cases dir <;>
      simp only [lineOK, hcid, hst, List.mem_cons, List.not_mem_nil, or_false,
        decide_eq_true_eq] at h <;>
      cases st <;> simp_all
  · simp
  · cases dir <;> simp [lineOK, hcid, hst] at h

theorem id_in_bucket (cats : List Category) (c : Category) (hc : c ∈ cats)
    (ty : CategoryType) (hty : c.type = ty) :
    c.id ∈ (cats.filter (fun x => x.type = ty)).map (·.id) :=
  List.mem_map.mpr ⟨c, List.mem_filter.mpr ⟨hc, by simp [hty]⟩, rfl⟩

theorem id_not_in_bucket (cats : List Category)
    (hids : (cats.map (·.id)).Nodup) (c : Category) (hc : c ∈ cats)
    (ty : CategoryType) (hty : c.type ≠ ty) :
    c.id ∉ (cats.filter (fun x => x.type = ty)).map (·.id) := by
  intro hmem
  obtain ⟨c', hc', hcid⟩ := List.mem_map.mp hmem
  obtain ⟨hc'mem, hc'ty⟩ := List.mem_filter.mp hc'
  have : c' = c := List.inj_on_of_nodup_map hids hc'mem hc hcid
  apply hty
  rw [← this]
  simpa using hc'ty

theorem lines_gap_in (cats : List Category)
    (hid0 : ∀ x ∈ cats, x.id ≠ 0)
    (ls : List TransactionLine)
    (hok : ∀ ln ∈ ls, lineOK cats TransactionDirection.IN ln = true) :
    ((ls.filter (fun ln => ln.special_type = some SpecialType.ASSET_PURCHASE)).map (·.amount)).sum
    - ((ls.filter (fun ln => ln.special_type = some SpecialType.LOAN_IN)).map (·.amount)).sum
    + ((ls.filter (fun ln => ln.special_type = some SpecialType.LOAN_REPAYMENT)).map (·.amount)).sum
    + ((ls.filter (fun ln => ln.special_type = some SpecialType.TAX_PAYMENT)).map (·.amount)).sum
    - ((ls.filter (fun ln => ln.special_type = some SpecialType.CAPITAL)).map (·.amount)).sum
    + ((ls.filter (fun ln => ln.special_type = some SpecialType.DRAWINGS)).map (·.amount)).sum
    - (((ls.filter (fun ln =>
          match ln.category_id with
          | some cid => cid ≠ 0 ∧
              cid ∈ (cats.filter (fun c => c.type = CategoryType.INCOME)).map (·.id)
          | none => False)).map (·.amount)).sum
       - ((ls.filter (fun ln =>
          match ln.category_id with
          | some cid => cid ≠ 0 ∧
              cid ∉ (cats.filter (fun c => c.type = CategoryType.INCOME)).map (·.id) ∧
              cid ∈ (cats.filter (fun c => c.type = CategoryType.COGS)).map (·.id)
          | none => False)).map (·.amount)).sum
       - ((ls.filter (fun ln =>
          match ln.category_id with
          | some cid => cid ≠ 0 ∧
              cid ∉ (cats.filter (fun c => c.type = CategoryType.INCOME)).map (·.id) ∧
              cid ∉ (cats.filter (fun c => c.type = CategoryType.COGS)).map (·.id) ∧
              cid ∈ (cats.filter (fun c => c.type = CategoryType.EXPENSE)).map (·.id)
          | none => False)).map (·.amount)).sum)
    - ((ls.filter (fun ln => ln.special_type = some SpecialType.TRANSFER_IN)).map (·.amount)).sum
    + ((ls.filter (fun ln => ln.special_type = some SpecialType.TRANSFER_OUT)).map (·.amount)).sum
    = -((ls.map (·.amount)).sum) := by
  induction ls with
  | nil => simp
  | cons ln rest ih =>
    have hokrest : ∀ x ∈ rest, lineOK cats TransactionDirection.IN x = true :=
      fun x hx => hok x (List.mem_cons_of_mem ln hx)
    have ihr := ih hokrest
    have hln := hok ln (List.mem_cons_self ln rest)
    rcases hcid : ln.category_id with _ | cid <;> rcases hst : ln.special_type with _ | st
    · simp [lineOK, hcid, hst] at hln
    · simp only [lineOK, hcid, hst, List.mem_cons, List.not_mem_nil, or_false,
        decide_eq_true_eq] at hln
      rcases hln with h | h | h <;> subst h <;>
        (simp +decide only [List.filter_cons, hcid, hst, if_true, if_false,
           List.map_cons, List.sum_cons]
         linarith [ihr])
    · simp only [lineOK, hcid, hst] at hln
      rw [List.any_eq_true] at hln
      obtain ⟨c, hc, hcp⟩ := hln
      simp only [decide_eq_true_eq] at hcp
      obtain ⟨hcidq, hcty⟩ := hcp
      have h0 : ¬(cid = 0) := by rw [← hcidq]; exact hid0 c hc
      have hin : cid ∈ (cats.filter (fun x => x.type = CategoryType.INCOME)).map (·.id) := by
        rw [← hcidq]; exact id_in_bucket cats c hc _ hcty
      simp +decide only [List.filter_cons, hcid, hst, ne_eq, h0, hin, List.map_cons,
        List.sum_cons, if_true, if_false, not_true, false_and, and_false, true_and, and_true,
        not_false_iff, decide_eq_true_eq]
      linarith [ihr]
    · simp [lineOK, hcid, hst] at hln

theorem lines_gap_out (cats : List Category)
    (hids : (cats.map (·.id)).Nodup)
    (hid0 : ∀ x ∈ cats, x.id ≠ 0)
    (ls : List TransactionLine)
    (hok : ∀ ln ∈ ls, lineOK cats TransactionDirection.OUT ln = true) :
    ((ls.filter (fun ln => ln.special_type = some SpecialType.ASSET_PURCHASE)).map (·.amount)).sum
    - ((ls.filter (fun ln => ln.special_type = some SpecialType.LOAN_IN)).map (·.amount)).sum
    + ((ls.filter (fun ln => ln.special_type = some SpecialType.LOAN_REPAYMENT)).map (·.amount)).sum
    + ((ls.filter (fun ln => ln.special_type = some SpecialType.TAX_PAYMENT)).map (·.amount)).sum
    - ((ls.filter (fun ln => ln.special_type = some SpecialType.CAPITAL)).map (·.amount)).sum
    + ((ls.filter (fun ln => ln.special_type = some SpecialType.DRAWINGS)).map (·.amount)).sum
    - (((ls.filter (fun ln =>
          match ln.category_id with
          | some cid => cid ≠ 0 ∧
              cid ∈ (cats.filter (fun c => c.type = CategoryType.INCOME)).map (·.id)
          | none => False)).map (·.amount)).sum
       - ((ls.filter (fun ln =>
          match ln.category_id with
          | some cid => cid ≠ 0 ∧
              cid ∉ (cats.filter (fun c => c.type = CategoryType.INCOME)).map (·.id) ∧
              cid ∈ (cats.filter (fun c => c.type = CategoryType.COGS)).map (·.id)
          | none => False)).map (·.amount)).sum
       - ((ls.filter (fun ln =>
          match ln.category_id with
          | some cid => cid ≠ 0 ∧
              cid ∉ (cats.filter (fun c => c.type = CategoryType.INCOME)).map (·.id) ∧
              cid ∉ (cats.filter (fun c => c.type = CategoryType.COGS)).map (·.id) ∧
              cid ∈ (cats.filter (fun c => c.type = CategoryType.EXPENSE)).map (·.id)
          | none => False)).map (·.amount)).sum)
    - ((ls.filter (fun ln => ln.special_type = some SpecialType.TRANSFER_IN)).map (·.amount)).sum
    + ((ls.filter (fun ln => ln.special_type = some SpecialType.TRANSFER_OUT)).map (·.amount)).sum
    = (ls.map (·.amount)).sum := by
  induction ls with
  | nil => simp
  | cons ln rest ih =>
    have hokrest : ∀ x ∈ rest, lineOK cats TransactionDirection.OUT x = true :=
      fun x hx => hok x (List.mem_cons_of_mem ln hx)
    have ihr := ih hokrest
    have hln := hok ln (List.mem_cons_self ln rest)
    rcases hcid : ln.category_id with _ | cid <;> rcases hst : ln.special_type with _ | st
    · simp [lineOK, hcid, hst] at hln
    · simp only [lineOK, hcid, hst, List.mem_cons, List.not_mem_nil, or_false,
        decide_eq_true_eq] at hln
      rcases hln with h | h | h | h | h <;> subst h <;>
        (simp +decide only [List.filter_cons, hcid, hst, if_true, if_false,
           List.map_cons, List.sum_cons]
         linarith [ihr])
    · simp only [lineOK, hcid, hst] at hln
      rw [List.any_eq_true] at hln
      obtain ⟨c, hc, hcp⟩ := hln
      simp only [decide_eq_true_eq] at hcp
      obtain ⟨hcidq, hcty⟩ := hcp
      have h0 : ¬(cid = 0) := by rw [← hcidq]; exact hid0 c hc
      have hnotin : cid ∉ (cats.filter (fun x => x.type = CategoryType.INCOME)).map (·.id) := by
        rw [← hcidq]
        exact id_not_in_bucket cats hids c hc _ (by rcases hcty with h | h <;> simp [h])
      rcases hcty with hcty | hcty
      · have hinc : cid ∈ (cats.filter (fun x => x.type = CategoryType.COGS)).map (·.id) := by
          rw [← hcidq]; exact id_in_bucket cats c hc _ hcty
        simp +decide only [List.filter_cons, hcid, hst, ne_eq, h0, hnotin, hinc, List.map_cons,
          List.sum_cons, if_true, if_false, not_true, not_false_iff, false_and, and_false,
          true_and, and_true, decide_eq_true_eq]
        linarith [ihr]
      · have hnotc : cid ∉ (cats.filter (fun x => x.type = CategoryType.COGS)).map (·.id) := by
          rw [← hcidq]
          exact id_not_in_bucket cats hids c hc _ (by simp [hcty])
        have hexp : cid ∈ (cats.filter (fun x => x.type = CategoryType.EXPENSE)).map (·.id) := by
          rw [← hcidq]; exact id_in_bucket cats c hc _ hcty
        simp +decide only [List.filter_cons, hcid, hst, ne_eq, h0, hnotin, hnotc, hexp,
          List.map_cons, List.sum_cons, if_true, if_false, not_true, not_false_iff, false_and,
          and_false, true_and, and_true, decide_eq_true_eq]
        linarith [ihr]
    · simp [lineOK, hcid, hst] at hln

theorem txn_gap (cats : List Category) (t : Transaction)
    (hids : (cats.map (·.id)).Nodup)
    (hid0 : ∀ x ∈ cats, x.id ≠ 0)
    (hl : (t.lines.map (·.amount)).sum = t.gross_amount - t.tax_amount)
    (hok : ∀ ln ∈ t.lines, lineOK cats t.direction ln = true) :
    signedGross t + lineTypeSum t SpecialType.ASSET_PURCHASE
      - lineTypeSum t SpecialType.LOAN_IN + lineTypeSum t SpecialType.LOAN_REPAYMENT
      + lineTypeSum t SpecialType.TAX_PAYMENT - txnTaxIn t + txnTaxOut t
      - lineTypeSum t SpecialType.CAPITAL + lineTypeSum t SpecialType.DRAWINGS
      - profitContribTxn cats t
    = lineTypeSum t SpecialType.TRANSFER_IN - lineTypeSum t SpecialType.TRANSFER_OUT := by
  cases hdir : t.direction
  · rw [hdir] at hok
    have hgap := lines_gap_in cats hid0 t.lines hok
    simp +decide only [signedGross, txnTaxIn, txnTaxOut, hdir, lineTypeSum, profitContribTxn,
      if_true, if_false]
    simp only [lineTypeSum] at hgap
    linarith [hgap, hl]
  · rw [hdir] at hok
    have hgap := lines_gap_out cats hids hid0 t.lines hok
    simp +decide only [signedGross, txnTaxIn, txnTaxOut, hdir, lineTypeSum, profitContribTxn,
      if_true, if_false]
    simp only [lineTypeSum] at hgap
    linarith [hgap, hl]

theorem bankBalanceTotal_eq (l : Ledger) (asOf : Date)
    (hbank : ∀ a ∈ l.accounts, a.type = AccountType.BANK)
    (hacct : ∀ t ∈ l.transactions, (l.accounts.countP (fun a => t.account_id = a.id)) = 1) :
    bankBalanceTotal l asOf
      = (l.accounts.map (fun a => a.opening_balance)).sum
        + ((l.transactions.filter (fun t => t.date ≤ asOf)).map signedGross).sum := by
  rw [bankBalanceTotal]
  have hfeq : l.accounts.filter (fun a => a.type = AccountType.BANK) = l.accounts := by
    apply List.filter_eq_self.mpr
    intro a ha
    simp [hbank a ha]
  rw [hfeq]
  have hsum : ∀ a ∈ l.accounts, accountBalanceAsOf l a asOf
      = a.opening_balance + (((l.transactions.filter (fun t => t.date ≤ asOf)).filter
          (fun t => t.account_id = a.id)).map signedGross).sum := by
    intro a _
    rw [accountBalanceAsOf]
    have hff : l.transactions.filter (fun t => decide (t.account_id = a.id ∧ t.date ≤ asOf))
        = (l.transactions.filter (fun t => t.date ≤ asOf)).filter
            (fun t => t.account_id = a.id) := by
      rw [List.filter_filter]
      apply List.filter_congr
      intro t _
      rw [Bool.decide_and]
    rw [hff]
  rw [sum_map_congr hsum, sum_map_add]
  congr 1
  rw [sum_over_accounts l.accounts (l.transactions.filter (fun t => t.date ≤ asOf))
    (fun a => a.id) signedGross]
  apply sum_map_congr
  intro t ht
  have hmem : t ∈ l.transactions := (List.mem_filter.mp ht).1
  rw [hacct t hmem]
  simp

theorem openingRE_eq (l : Ledger)
    (hbank : ∀ a ∈ l.accounts, a.type = AccountType.BANK) :
    openingRetainedEarnings l = (l.accounts.map (fun a => a.opening_balance)).sum := by
  rw [openingRetainedEarnings]
  have gen : ∀ (A : List Account) (init : ℤ), (∀ a ∈ A, a.type = AccountType.BANK) →
      A.foldl
        (fun acc a =>
          if a.type = AccountType.BANK then acc + a.opening_balance
          else if a.type = AccountType.CREDIT_CARD then acc - a.opening_balance
          else acc)
        init
      = init + (A.map (fun a => a.opening_balance)).sum := by
    intro A
    induction A with
    | nil => intro init _; simp
    | cons a As ih =>
      intro init hA
      rw [List.foldl_cons, if_pos (by simp [hA a (List.mem_cons_self a As)])]
      rw [ih _ (fun x hx => hA x (List.mem_cons_of_mem a hx))]
      simp only [List.map_cons, List.sum_cons]
      ring
  rw [gen l.accounts 0 hbank]
  ring

theorem creditCardTotal_zero (l : Ledger) (asOf : Date)
    (hbank : ∀ a ∈ l.accounts, a.type = AccountType.BANK) :
    creditCardTotal l asOf = 0 := by
  rw [creditCardTotal]
  have gen : ∀ (A : List Account) (init : ℤ), (∀ a ∈ A, a.type = AccountType.BANK) →
      A.foldl
        (fun acc a =>
          if a.type = AccountType.CREDIT_CARD then
            (let bal := accountBalanceAsOf l a asOf
             if bal < 0 then -bal else 0)
          else acc)
        init
      = init := by
    intro A
    induction A with
    | nil => intro init _; rfl
    | cons a As ih =>
      intro init hA
      rw [List.foldl_cons, if_neg (by simp [hA a (List.mem_cons_self a As)])]
      exact ih _ (fun x hx => hA x (List.mem_cons_of_mem a hx))
  exact gen l.accounts 0 hbank

theorem taxCollectedAsOf_eq (l : Ledger) (asOf : Date) :
    taxCollectedAsOf l asOf
      = ((l.transactions.filter (fun t => t.date ≤ asOf)).map (fun t => txnTaxIn t)).sum := by
  rw [taxCollectedAsOf, sum_filter_eq_sum_ite, sum_filter_eq_sum_ite]
  apply sum_map_congr
  intro t _
  by_cases hd : t.date ≤ asOf <;> by_cases hdir : t.direction = TransactionDirection.IN <;>
    simp [txnTaxIn, hd, hdir]

theorem taxPaidTxnAsOf_eq (l : Ledger) (asOf : Date) :
    taxPaidTxnAsOf l asOf
      = ((l.transactions.filter (fun t => t.date ≤ asOf)).map (fun t => txnTaxOut t)).sum := by
  rw [taxPaidTxnAsOf, sum_filter_eq_sum_ite, sum_filter_eq_sum_ite]
  apply sum_map_congr
  intro t _
  by_cases hd : t.date ≤ asOf <;> by_cases hdir : t.direction = TransactionDirection.OUT <;>
    simp [txnTaxOut, hd, hdir]

theorem netProfitYTD_eq (l : Ledger) (year : ℤ) (asOf : Date)
    (hdate : ∀ t ∈ l.transactions, Date.mk year 1 1 ≤ t.date) :
    netProfitYTD l year asOf
      = ((l.transactions.filter (fun t => t.date ≤ asOf)).map
          (fun t => profitContribTxn l.categories t)).sum := by
  simp only [netProfitYTD]
  have hfe : l.transactions.filter
        (fun t => decide (Date.mk year 1 1 ≤ t.date ∧ t.date ≤ asOf))
      = l.transactions.filter (fun t => t.date ≤ asOf) := by
    apply List.filter_congr
    intro t ht
    simp [hdate t ht]
  rw [hfe]
  rw [filter_flatMap, filter_flatMap, filter_flatMap]
  rw [sum_map_flatMap, sum_map_flatMap, sum_map_flatMap]
  rw [← sum_map_sub, ← sum_map_sub]
  apply sum_map_congr
  intro t _
  simp only [profitContribTxn]

theorem specialSum_income_tax_zero (l : Ledger) (asOf : Date)
    (hok : ∀ t ∈ l.transactions, ∀ ln ∈ t.lines, lineOK l.categories t.direction ln = true) :
    specialSumAsOf l asOf SpecialType.INCOME_TAX = 0 := by
  rw [specialSumAsOf]
  have hz : ∀ t ∈ l.transactions.filter (fun t => t.date ≤ asOf),
      lineTypeSum t SpecialType.INCOME_TAX = (0 : ℤ) := by
    intro t ht
    have hmem : t ∈ l.transactions := (List.mem_filter.mp ht).1
    rw [lineTypeSum]
    have : t.lines.filter (fun ln => ln.special_type = some SpecialType.INCOME_TAX) = [] := by
      rw [List.filter_eq_nil_iff]
      intro ln hln
      have := (lineOK_not_tax_lines l.categories t.direction ln (hok t hmem ln hln)).1
      simp [this]
    rw [this]
    rfl
  rw [sum_map_congr hz, sum_map_zero]

theorem specialSum_payroll_tax_zero (l : Ledger) (asOf : Date)
    (hok : ∀ t ∈ l.transactions, ∀ ln ∈ t.lines, lineOK l.categories t.direction ln = true) :
    specialSumAsOf l asOf SpecialType.PAYROLL_TAX = 0 := by
  rw [specialSumAsOf]
  have hz : ∀ t ∈ l.transactions.filter (fun t => t.date ≤ asOf),
      lineTypeSum t SpecialType.PAYROLL_TAX = (0 : ℤ) := by
    intro t ht
    have hmem : t ∈ l.transactions := (List.mem_filter.mp ht).1
    rw [lineTypeSum]
    have : t.lines.filter (fun ln => ln.special_type = some SpecialType.PAYROLL_TAX) = [] := by
      rw [List.filter_eq_nil_iff]
      intro ln hln
      have := (lineOK_not_tax_lines l.categories t.direction ln (hok t hmem ln hln)).2
      simp [this]
    rw [this]
    rfl
  rw [sum_map_congr hz, sum_map_zero]

theorem snapshot_balanced (l : Ledger) (year : ℤ) (asOf : Date)
    (hbank : ∀ a ∈ l.accounts, a.type = AccountType.BANK)
    (hacct : ∀ t ∈ l.transactions, (l.accounts.countP (fun a => t.account_id = a.id)) = 1)
    (hids : (l.categories.map (·.id)).Nodup)
    (hid0 : ∀ c ∈ l.categories, c.id ≠ 0)
    (hdate : ∀ t ∈ l.transactions, Date.mk year 1 1 ≤ t.date)
    (hl : ∀ t ∈ l.transactions, (t.lines.map (·.amount)).sum = t.gross_amount - t.tax_amount)
    (hok : ∀ t ∈ l.transactions, ∀ ln ∈ t.lines, lineOK l.categories t.direction ln = true)
    (htrans : specialSumAsOf l asOf SpecialType.TRANSFER_OUT
      = specialSumAsOf l asOf SpecialType.TRANSFER_IN)
    (htax : taxPaidTxnAsOf l asOf + specialSumAsOf l asOf SpecialType.TAX_PAYMENT
      ≤ taxCollectedAsOf l asOf) :
    (calculate_snapshot l year asOf (openingRetainedEarnings l)).assets_total
      - (calculate_snapshot l year asOf (openingRetainedEarnings l)).liabilities_total
      = (calculate_snapshot l year asOf (openingRetainedEarnings l)).equity_total := by
  simp only [calculate_snapshot]
  rw [creditCardTotal_zero l asOf hbank, specialSum_income_tax_zero l asOf hok,
    specialSum_payroll_tax_zero l asOf hok]
  rw [if_neg (by linarith [htax])]
  rw [bankBalanceTotal_eq l asOf hbank hacct, openingRE_eq l hbank,
    taxCollectedAsOf_eq l asOf, taxPaidTxnAsOf_eq l asOf, netProfitYTD_eq l year asOf hdate]
  have hkey : ((l.transactions.filter (fun t => t.date ≤ asOf)).map
      (fun t => signedGross t + lineTypeSum t SpecialType.ASSET_PURCHASE
        - lineTypeSum t SpecialType.LOAN_IN + lineTypeSum t SpecialType.LOAN_REPAYMENT
        + lineTypeSum t SpecialType.TAX_PAYMENT - txnTaxIn t + txnTaxOut t
        - lineTypeSum t SpecialType.CAPITAL + lineTypeSum t SpecialType.DRAWINGS
        - profitContribTxn l.categories t)).sum
      = ((l.transactions.filter (fun t => t.date ≤ asOf)).map
        (fun t => lineTypeSum t SpecialType.TRANSFER_IN
          - lineTypeSum t SpecialType.TRANSFER_OUT)).sum := by
    apply sum_map_congr
    intro t ht
    exact txn_gap l.categories t hids hid0 (hl t (List.mem_filter.mp ht).1)
      (hok t (List.mem_filter.mp ht).1)
  simp only [sum_map_add, sum_map_sub] at hkey
  have eSG : ((l.transactions.filter (fun t => t.date ≤ asOf)).map
      (fun t => signedGross t)).sum
      = ((l.transactions.filter (fun t => t.date ≤ asOf)).map signedGross).sum := rfl
  have eAP : ((l.transactions.filter (fun t => t.date ≤ asOf)).map
      (fun t => lineTypeSum t SpecialType.ASSET_PURCHASE)).sum
      = specialSumAsOf l asOf SpecialType.ASSET_PURCHASE := rfl
  have eLI : ((l.transactions.filter (fun t => t.date ≤ asOf)).map
      (fun t => lineTypeSum t SpecialType.LOAN_IN)).sum
      = specialSumAsOf l asOf SpecialType.LOAN_IN := rfl
  have eLR : ((l.transactions.filter (fun t => t.date ≤ asOf)).map
      (fun t => lineTypeSum t SpecialType.LOAN_REPAYMENT)).sum
      = specialSumAsOf l asOf SpecialType.LOAN_REPAYMENT := rfl
  have eTP : ((l.transactions.filter (fun t => t.date ≤ asOf)).map
      (fun t => lineTypeSum t SpecialType.TAX_PAYMENT)).sum
      = specialSumAsOf l asOf SpecialType.TAX_PAYMENT := rfl
  have eCAP : ((l.transactions.filter (fun t => t.date ≤ asOf)).map
      (fun t => lineTypeSum t SpecialType.CAPITAL)).sum
      = specialSumAsOf l asOf SpecialType.CAPITAL := rfl
  have eDR : ((l.transactions.filter (fun t => t.date ≤ asOf)).map
      (fun t => lineTypeSum t SpecialType.DRAWINGS)).sum
      = specialSumAsOf l asOf SpecialType.DRAWINGS := rfl
  have eTIN : ((l.transactions.filter (fun t => t.date ≤ asOf)).map
      (fun t => lineTypeSum t SpecialType.TRANSFER_IN)).sum
      = specialSumAsOf l asOf SpecialType.TRANSFER_IN := rfl
  have eTOUT : ((l.transactions.filter (fun t => t.date ≤ asOf)).map
      (fun t => lineTypeSum t SpecialType.TRANSFER_OUT)).sum
      = specialSumAsOf l asOf SpecialType.TRANSFER_OUT := rfl
  rw [eSG, eAP, eLI, eLR, eTP, eCAP, eDR, eTIN, eTOUT] at hkey
  linarith [hkey, htrans]

/-! ## Helper lemmas: transfer validation, P&L emptiness, validation scope -/

theorem flatMap_congr {α β : Type} (l : List α) (f g : α → List β)
    (h : ∀ x ∈ l, f x = g x) : l.flatMap f = l.flatMap g := by
  induction l with
  | nil => rfl
  | cons x xs ih =>
    rw [List.flatMap_cons, List.flatMap_cons, h x (List.mem_cons_self x xs),
      ih (fun y hy => h y (List.mem_cons_of_mem x hy))]

theorem transfer_filter_sum (l : Ledger) (year : ℤ) (month : ℕ) (st : SpecialType)
    (hst : st = SpecialType.TRANSFER_OUT ∨ st = SpecialType.TRANSFER_IN) :
    (((transferLines l year month).filter (fun p => p.2.special_type = some st)).map
      (fun p => p.2.amount)).sum
    = ((l.transactions.filter (fun t => inMonthWindow year month t.date)).map
        (fun t => lineTypeSum t st)).sum := by
  rw [transferLines, List.filter_filter]
  have hcond : ∀ p : ℕ × TransactionLine,
      (decide (p.2.special_type = some st) &&
        decide (p.2.special_type = some SpecialType.TRANSFER_OUT ∨
                p.2.special_type = some SpecialType.TRANSFER_IN))
      = decide (p.2.special_type = some st) := by
    intro p
    by_cases h : p.2.special_type = some st
    · rcases hst with h' | h' <;> subst h' <;> simp [h]
    · simp [h]
  rw [List.filter_congr (fun p _ => hcond p)]
  rw [filter_flatMap, sum_map_flatMap]
  apply sum_map_congr
  intro t _
  rw [List.filter_map, List.map_map, lineTypeSum]
  have : (t.lines.filter
        ((fun p : ℕ × TransactionLine => decide (p.2.special_type = some st)) ∘
          (fun ln => (t.id, ln))))
      = t.lines.filter (fun ln => ln.special_type = some st) := by
    apply List.filter_congr
    intro ln _
    rfl
  rw [this]
  rfl

theorem transfer_filter_list (l : Ledger) (year : ℤ) (month : ℕ) (st : SpecialType)
    (hst : st = SpecialType.TRANSFER_OUT ∨ st = SpecialType.TRANSFER_IN) :
    ((transferLines l year month).filter (fun p => p.2.special_type = some st)).map
      (fun p => (p.1, p.2.id, p.2.amount))
    = (l.transactions.filter (fun t => inMonthWindow year month t.date)).flatMap
        (fun t => (t.lines.filter (fun ln => ln.special_type = some st)).map
          (fun ln => (t.id, ln.id, ln.amount))) := by
  rw [transferLines, List.filter_filter]
  have hcond : ∀ p : ℕ × TransactionLine,
      (decide (p.2.special_type = some st) &&
        decide (p.2.special_type = some SpecialType.TRANSFER_OUT ∨
                p.2.special_type = some SpecialType.TRANSFER_IN))
      = decide (p.2.special_type = some st) := by
    intro p
    by_cases h : p.2.special_type = some st
    · rcases hst with h' | h' <;> subst h' <;> simp [h]
    · simp [h]
  rw [List.filter_congr (fun p _ => hcond p)]
  rw [filter_flatMap, List.map_flatMap]
  apply flatMap_congr
  intro t _
  rw [List.filter_map, List.map_map]
  rfl

theorem plReport_empty (l : Ledger) (year : ℤ) (h : l.transactions = []) :
    (∀ p ∈ (plReportOfLedger l year).months, p.2 = zeroMonthPL)
    ∧ (plReportOfLedger l year).ytd = zeroMonthPL := by
  obtain ⟨accs, cats, txns⟩ := l
  have htx : txns = [] := h
  subst htx
  constructor
  · intro p hp
    simp only [plReportOfLedger, List.mem_map] at hp
    obtain ⟨i, _, rfl⟩ := hp
    rfl
  · rfl

theorem validationScope_subset (l : Ledger) (year : Option ℤ) (month : Option ℕ) :
    ∀ t ∈ validationScope l year month, t ∈ l.transactions := by
  intro t ht
  unfold validationScope at ht
  rcases month with _ | m <;> rcases year with _ | y <;> simp only at ht
  · exact ht
  · split at ht
    · exact (List.mem_filter.mp ht).1
    · exact ht
  · exact ht
  · split at ht
    · split at ht
      · exact (List.mem_filter.mp (List.mem_filter.mp ht).1).1
      · exact (List.mem_filter.mp ht).1
    · split at ht
      · exact (List.mem_filter.mp ht).1
      · exact ht

theorem validate_transactions_clock (l : Ledger) (year : Option ℤ) (month : Option ℕ)
    (d1 d2 : Date)
    (h : ∀ t ∈ l.transactions,
      check_unreconciled_transaction d1 t = check_unreconciled_transaction d2 t) :
    validate_transactions l year month d1 = validate_transactions l year month d2 := by
  have hw : (validationScope l year month).flatMap
        (fun t => (check_transfer_balance t).toList ++
          (check_unreconciled_transaction d1 t).toList)
      = (validationScope l year month).flatMap
        (fun t => (check_transfer_balance t).toList ++
          (check_unreconciled_transaction d2 t).toList) := by
    apply flatMap_congr
    intro t ht
    rw [h t (validationScope_subset l year month t ht)]
  simp only [validate_transactions]
  rw [hw]

theorem warnings_filter_transfer (l : Ledger) (year : Option ℤ) (month : Option ℕ)
    (d : Date) :
    (validate_transactions l year month d).warnings.filter
        (fun f => decide ( f.error_type ≠ ValidationErrorType.unreconciled_transaction))
      = (validationScope l year month).flatMap
          (fun t => (check_transfer_balance t).toList) := by
  show ((validationScope l year month).flatMap
      (fun t => (check_transfer_balance t).toList ++
        (check_unreconciled_transaction d t).toList)).filter
      (fun f => decide ( f.error_type ≠ ValidationErrorType.unreconciled_transaction))
    = (validationScope l year month).flatMap
        (fun t => (check_transfer_balance t).toList)
  rw [filter_flatMap]
  apply flatMap_congr
  intro t _
  rw [List.filter_append]
  have h1 : (check_transfer_balance t).toList.filter
      (fun f => decide ( f.error_type ≠ ValidationErrorType.unreconciled_transaction))
      = (check_transfer_balance t).toList := by
    rw [check_transfer_balance]
    split
    · simp [List.filter]
    · rfl
  have h2 : (check_unreconciled_transaction d t).toList.filter
      (fun f => decide ( f.error_type ≠ ValidationErrorType.unreconciled_transaction))
      = [] := by
    rw [check_unreconciled_transaction]
    split
    · simp [List.filter]
    · rfl
  rw [h1, h2, List.append_nil]

/-! ## Claim theorems -/

/-- C1 The claim says the tax split produces net = round2(gross/(1+rate))
    and tax = gross - net, with net = 100.00 and tax = 8.10 at
    gross = 108.10, rate = 0.081.  The code instead returns the quantized
    quotient AS THE TAX: at that input calculate_tax_amount yields 100.00
    and calculate_net_amount yields 8.10 — the net and tax are swapped
    relative to the claim (and to the repository's own tests, which
    assert tax = 8.10, net = 100.00 for this very scenario). -/
theorem C1_tax_split_swapped_at_spec_scenario :
    calculate_tax_amount (10810/100) (some ⟨81/1000⟩) = 100
    ∧ calculate_net_amount (10810/100)
        (calculate_tax_amount (10810/100) (some ⟨81/1000⟩)) = 810/100
    ∧ calculate_tax_amount (10810/100) (some ⟨81/1000⟩) ≠ 810/100
    ∧ calculate_tax_amount (10810/100) none = 0
    ∧ calculate_tax_amount (10810/100) (some ⟨0⟩) = 0 := by
  refine ⟨?_, ?_, ?_, ?_, ?_⟩ <;>
    norm_num [calculate_tax_amount, calculate_net_amount, quantize2, roundHalfEvenInt]

/-- C4 For every 2-decimal gross amount g/100 ≥ 0 (g in cents, the
    data-model domain) and every rate rn/rd in [0,1), the code's tax
    split satisfies net + tax = gross, net ≥ 0 and tax ≥ 0. -/
theorem C4_tax_split_algebra (g rn rd : ℕ) (h : rn < rd) :
    calculate_net_amount ((g : ℚ)/100)
        (calculate_tax_amount ((g : ℚ)/100) (some ⟨(rn : ℚ)/(rd : ℚ)⟩))
      + calculate_tax_amount ((g : ℚ)/100) (some ⟨(rn : ℚ)/(rd : ℚ)⟩) = (g : ℚ)/100
    ∧ 0 ≤ calculate_net_amount ((g : ℚ)/100)
        (calculate_tax_amount ((g : ℚ)/100) (some ⟨(rn : ℚ)/(rd : ℚ)⟩))
    ∧ 0 ≤ calculate_tax_amount ((g : ℚ)/100) (some ⟨(rn : ℚ)/(rd : ℚ)⟩) := by
  have hnet : ∀ a b : ℚ, calculate_net_amount a b = a - b := fun a b => rfl
  have hrdpos : (0:ℚ) < (rd:ℚ) := by
    have : 0 < rd := lt_of_le_of_lt (Nat.zero_le rn) h
    exact_mod_cast this
  have hr0 : (0:ℚ) ≤ (rn:ℚ)/(rd:ℚ) := div_nonneg (by positivity) (le_of_lt hrdpos)
  have h1r : (0:ℚ) < 1 + (rn:ℚ)/(rd:ℚ) := by linarith
  by_cases hz : (rn:ℚ)/(rd:ℚ) = 0
  · have htax : calculate_tax_amount ((g : ℚ)/100) (some ⟨(rn : ℚ)/(rd : ℚ)⟩) = 0 := by
      simp [calculate_tax_amount, hz]
    rw [htax, hnet]
    refine ⟨by ring, by rw [sub_zero]; positivity, le_refl 0⟩
  · have htax : calculate_tax_amount ((g : ℚ)/100) (some ⟨(rn : ℚ)/(rd : ℚ)⟩)
        = (roundHalfEvenInt ((g : ℚ)/100 / (1 + (rn:ℚ)/(rd:ℚ)) * 100) : ℚ) / 100 := by
      simp [calculate_tax_amount, hz, quantize2]
    have hq : (g : ℚ)/100 / (1 + (rn:ℚ)/(rd:ℚ)) * 100 = (g : ℚ) / (1 + (rn:ℚ)/(rd:ℚ)) := by
      field_simp
      ring
    have hq0 : (0:ℚ) ≤ (g:ℚ) / (1 + (rn:ℚ)/(rd:ℚ)) := div_nonneg (by positivity) (le_of_lt h1r)
    have hqle : (g:ℚ) / (1 + (rn:ℚ)/(rd:ℚ)) ≤ (((g:ℕ):ℤ) : ℚ) := by
      push_cast
      exact div_le_self (by positivity) (by linarith)
    have hk0 : 0 ≤ roundHalfEvenInt ((g:ℚ) / (1 + (rn:ℚ)/(rd:ℚ))) := roundHE_nonneg _ hq0
    have hkle : roundHalfEvenInt ((g:ℚ) / (1 + (rn:ℚ)/(rd:ℚ))) ≤ ((g:ℕ):ℤ) :=
      roundHE_le_intBound _ _ hqle
    have hkleQ : (roundHalfEvenInt ((g:ℚ) / (1 + (rn:ℚ)/(rd:ℚ))) : ℚ) ≤ (g:ℚ) := by
      have h' : ((roundHalfEvenInt ((g:ℚ) / (1 + (rn:ℚ)/(rd:ℚ))) : ℤ) : ℚ)
          ≤ (((g:ℕ):ℤ) : ℚ) := Int.cast_le.mpr hkle
      push_cast at h'
      exact h'
    have hk0Q : (0:ℚ) ≤ (roundHalfEvenInt ((g:ℚ) / (1 + (rn:ℚ)/(rd:ℚ))) : ℚ) := by
      exact_mod_cast hk0
    rw [htax, hq, hnet]
    refine ⟨by ring, by linarith, by linarith⟩

/-- C4 witness at gross = 108.10, rate = 0.081. -/
theorem C4_tax_split_algebra_witness :
    81 < 1000
    ∧ (calculate_net_amount (((10810:ℕ) : ℚ)/100)
          (calculate_tax_amount (((10810:ℕ) : ℚ)/100)
            (some ⟨((81:ℕ) : ℚ)/((1000:ℕ) : ℚ)⟩))
        + calculate_tax_amount (((10810:ℕ) : ℚ)/100)
            (some ⟨((81:ℕ) : ℚ)/((1000:ℕ) : ℚ)⟩) = ((10810:ℕ) : ℚ)/100
      ∧ 0 ≤ calculate_net_amount (((10810:ℕ) : ℚ)/100)
          (calculate_tax_amount (((10810:ℕ) : ℚ)/100)
            (some ⟨((81:ℕ) : ℚ)/((1000:ℕ) : ℚ)⟩))
      ∧ 0 ≤ calculate_tax_amount (((10810:ℕ) : ℚ)/100)
          (some ⟨((81:ℕ) : ℚ)/((1000:ℕ) : ℚ)⟩)) :=
  ⟨by decide, C4_tax_split_algebra 10810 81 1000 (by decide)⟩

/-- C5 counterexample: the claim asserts half-up rounding (an exact
    half-cent rounds away from zero).  At gross = 0.63, rate = 0.2 the
    quotient is exactly 0.525; the code (Decimal's default
    ROUND_HALF_EVEN) produces 0.52, while the spec's half-up mode would
    produce 0.53. -/
theorem C5_half_up_counterexample :
    calculate_tax_amount (63/100) (some ⟨1/5⟩) = 52/100
    ∧ specRoundHalfUp2 ((63/100) / (1 + 1/5)) = 53/100
    ∧ (52/100 : ℚ) ≠ 53/100 := by
  refine ⟨?_, ?_, by norm_num⟩ <;>
    norm_num [calculate_tax_amount, specRoundHalfUp2, quantize2, roundHalfEvenInt]

/-- C5 amended: rounding to 2 decimals is applied exactly once, to the
    quotient gross/(1+rate), and the mode is round-half-EVEN (banker's
    rounding), not half-up: the result is k/100 for an integer k within
    half a cent of the exact quotient, and an exact half-cent tie makes
    k even. -/
theorem C5_single_half_even_rounding (gross : ℚ) (rn rd : ℕ)
    (h1 : 0 < rn) (h2 : 0 < rd) :
    ∃ k : ℤ, calculate_tax_amount gross (some ⟨(rn:ℚ)/(rd:ℚ)⟩) = (k : ℚ) / 100
      ∧ |gross / (1 + (rn:ℚ)/(rd:ℚ)) * 100 - (k : ℚ)| ≤ 1/2
      ∧ (|gross / (1 + (rn:ℚ)/(rd:ℚ)) * 100 - (k : ℚ)| = 1/2 → k % 2 = 0) := by
  have hrpos : (0:ℚ) < (rn:ℚ)/(rd:ℚ) :=
    div_pos (by exact_mod_cast h1) (by exact_mod_cast h2)
  refine ⟨roundHalfEvenInt (gross / (1 + (rn:ℚ)/(rd:ℚ)) * 100), ?_,
    roundHE_abs_le _, roundHE_tie_even _⟩
  simp [calculate_tax_amount, ne_of_gt hrpos, quantize2]

/-- C5 witness at gross = 0.63, rate = 1/5. -/
theorem C5_single_half_even_rounding_witness :
    0 < 1 ∧ 0 < 5
    ∧ ∃ k : ℤ, calculate_tax_amount (63/100) (some ⟨((1:ℕ):ℚ)/((5:ℕ):ℚ)⟩) = (k : ℚ) / 100
        ∧ |(63/100 : ℚ) / (1 + ((1:ℕ):ℚ)/((5:ℕ):ℚ)) * 100 - (k : ℚ)| ≤ 1/2
        ∧ (|(63/100 : ℚ) / (1 + ((1:ℕ):ℚ)/((5:ℕ):ℚ)) * 100 - (k : ℚ)| = 1/2 → k % 2 = 0) :=
  ⟨by decide, by decide, C5_single_half_even_rounding (63/100) 1 5 (by decide) (by decide)⟩

/-- C2 counterexample: the claim quantifies over every ledger, but a
    ledger with a single unallocated inflow (assets grow, equity does
    not) gets balanced = false in all twelve months of the generated
    balance sheet. -/
theorem C2_balance_counterexample :
    (bsReportOfLedger cexBalanceLedger 2026).validation.map (fun e => e.balanced)
      = List.replicate 12 false := by decide

/-- C2 amended: the per-month balanced flag compares
    assets.total - liabilities.total with equity.total and is not true
    for every ledger; it IS true for every month whenever all accounts
    are bank accounts, every transaction's account exists exactly once,
    category ids are unique and nonzero, every transaction is dated on
    or after Jan 1 of the report year, every transaction is fully
    allocated (its line amounts sum to gross - tax) to
    direction-appropriate line kinds (lineOK), cumulative transfers-out
    equal transfers-in at each month's as-of date, and cumulative tax
    paid never exceeds tax collected at each month's as-of date. -/
theorem C2_balance_equation (l : Ledger) (year : ℤ)
    (hbank : ∀ a ∈ l.accounts, a.type = AccountType.BANK)
    (hacct : ∀ t ∈ l.transactions, (l.accounts.countP (fun a => t.account_id = a.id)) = 1)
    (hids : (l.categories.map (·.id)).Nodup)
    (hid0 : ∀ c ∈ l.categories, c.id ≠ 0)
    (hdate : ∀ t ∈ l.transactions, Date.mk year 1 1 ≤ t.date)
    (hl : ∀ t ∈ l.transactions, (t.lines.map (·.amount)).sum = t.gross_amount - t.tax_amount)
    (hok : ∀ t ∈ l.transactions, ∀ ln ∈ t.lines, lineOK l.categories t.direction ln = true)
    (htrans : ∀ m ∈ List.range 12,
      specialSumAsOf l (asOfDate year (m + 1)) SpecialType.TRANSFER_OUT
        = specialSumAsOf l (asOfDate year (m + 1)) SpecialType.TRANSFER_IN)
    (htax : ∀ m ∈ List.range 12,
      taxPaidTxnAsOf l (asOfDate year (m + 1))
          + specialSumAsOf l (asOfDate year (m + 1)) SpecialType.TAX_PAYMENT
        ≤ taxCollectedAsOf l (asOfDate year (m + 1))) :
    ∀ e ∈ (bsReportOfLedger l year).validation, e.balanced = true := by
  intro e he
  simp only [bsReportOfLedger, List.map_map, List.mem_map] at he
  obtain ⟨i, hi, rfl⟩ := he
  simp only [Function.comp]
  rw [decide_eq_true_eq]
  exact snapshot_balanced l year (asOfDate year (i + 1)) hbank hacct hids hid0 hdate hl hok
    (htrans i hi) (htax i hi)

/-- C2 witness: a fully allocated two-transaction ledger satisfies all
    side conditions and every month balances. -/
theorem C2_balance_equation_witness :
    (bsReportOfLedger okLedger 2026).validation.all (fun e => e.balanced) = true :=
  List.all_eq_true.mpr
    (C2_balance_equation okLedger 2026 (by decide) (by decide) (by decide) (by decide)
      (by decide) (by decide) (by decide) (by decide) (by decide))

/-- C3 The claim says the credit-card component of liabilities is the
    per-account sum of negative-balance magnitudes.  The source
    reassigns the accumulator inside the per-account loop, so the total
    reflects only the LAST credit-card account: with accounts at
    balances -100.00 and +50.00 the snapshot's per-account rows carry
    liabilities 100.00 and 0.00, yet credit_cards_total is 0.00 instead
    of their 100.00 sum (the spec-modelled per-account sum). -/
theorem C3_credit_card_total_overwritten :
    (calculate_snapshot cexCCLedger 2026 (asOfDate 2026 1) 0).credit_cards_total = 0
    ∧ (calculate_snapshot cexCCLedger 2026 (asOfDate 2026 1) 0).credit_cards
        = [(1, -10000, 10000), (2, 5000, 0)]
    ∧ specCreditCardLiabilitySum cexCCLedger (asOfDate 2026 1) = 10000
    ∧ (((calculate_snapshot cexCCLedger 2026 (asOfDate 2026 1) 0).credit_cards.map
          (fun r => r.2.2)).sum
        ≠ (calculate_snapshot cexCCLedger 2026 (asOfDate 2026 1) 0).credit_cards_total) := by
  refine ⟨by decide, by decide, by decide, by decide⟩

/-- C6 Per month, transfer validation reports the signed difference
    Σ TRANSFER_OUT - Σ TRANSFER_IN over the month's allocation lines,
    sets is_balanced exactly when the difference is 0, and lists the
    contributing (transaction id, line id, amount) triples; the embedding
    is a pure function of the ledger (no mutation).  Concretely, a
    TRANSFER_OUT of 2000.00 and a TRANSFER_IN of 1500.00 in the same
    month yield is_balanced = false with difference = 500.00. -/
theorem C6_transfer_validation :
    (∀ (l : Ledger) (year : ℤ) (month : ℕ),
      (validate_month l year month).total_transfers_out = specTransferOutSum l year month
      ∧ (validate_month l year month).total_transfers_in = specTransferInSum l year month
      ∧ (validate_month l year month).difference
          = specTransferOutSum l year month - specTransferInSum l year month
      ∧ ((validate_month l year month).is_balanced = true ↔
          (validate_month l year month).difference = 0)
      ∧ (validate_month l year month).transfers_out
          = (l.transactions.filter (fun t => inMonthWindow year month t.date)).flatMap
              (fun t => (t.lines.filter
                  (fun ln => ln.special_type = some SpecialType.TRANSFER_OUT)).map
                (fun ln => (t.id, ln.id, ln.amount)))
      ∧ (validate_month l year month).transfers_in
          = (l.transactions.filter (fun t => inMonthWindow year month t.date)).flatMap
              (fun t => (t.lines.filter
                  (fun ln => ln.special_type = some SpecialType.TRANSFER_IN)).map
                (fun ln => (t.id, ln.id, ln.amount))))
    ∧ (validate_month transferLedger 2026 1).is_balanced = false
    ∧ (validate_month transferLedger 2026 1).difference = 50000 := by
  refine ⟨?_, by decide, by decide⟩
  intro l year month
  have hout := transfer_filter_sum l year month SpecialType.TRANSFER_OUT (Or.inl rfl)
  have hin := transfer_filter_sum l year month SpecialType.TRANSFER_IN (Or.inr rfl)
  have hlout := transfer_filter_list l year month SpecialType.TRANSFER_OUT (Or.inl rfl)
  have hlin := transfer_filter_list l year month SpecialType.TRANSFER_IN (Or.inr rfl)
  refine ⟨?_, ?_, ?_, ?_, ?_, ?_⟩
  · rw [show (validate_month l year month).total_transfers_out
        = (((transferLines l year month).filter
            (fun p => p.2.special_type = some SpecialType.TRANSFER_OUT)).map
          (fun p => p.2.amount)).sum from rfl, hout]
    rfl
  · rw [show (validate_month l year month).total_transfers_in
        = (((transferLines l year month).filter
            (fun p => p.2.special_type = some SpecialType.TRANSFER_IN)).map
          (fun p => p.2.amount)).sum from rfl, hin]
    rfl
  · rw [show (validate_month l year month).difference
        = (((transferLines l year month).filter
            (fun p => p.2.special_type = some SpecialType.TRANSFER_OUT)).map
          (fun p => p.2.amount)).sum
          - (((transferLines l year month).filter
            (fun p => p.2.special_type = some SpecialType.TRANSFER_IN)).map
          (fun p => p.2.amount)).sum from rfl, hout, hin]
    rfl
  · rw [show (validate_month l year month).is_balanced
        = decide ((validate_month l year month).difference = 0) from rfl]
    exact decide_eq_true_iff
  · rw [show (validate_month l year month).transfers_out
        = ((transferLines l year month).filter
            (fun p => p.2.special_type = some SpecialType.TRANSFER_OUT)).map
          (fun p => (p.1, p.2.id, p.2.amount)) from rfl, hlout]
  · rw [show (validate_month l year month).transfers_in
        = ((transferLines l year month).filter
            (fun p => p.2.special_type = some SpecialType.TRANSFER_IN)).map
          (fun p => (p.1, p.2.id, p.2.amount)) from rfl, hlin]

/-- C7 counterexample: the claim says a missing business is reported
    "not found" by the P&L engine.  The P&L service performs no
    existence check: for a store with no businesses at all it returns an
    ordinary all-zero report, identical to the one for an existing
    business with no data; only the balance-sheet service raises
    not-found for the same missing business. -/
theorem C7_no_not_found_counterexample :
    PL_generate_report missingStore 1 2026 = PL_generate_report presentStore 1 2026
    ∧ ((PL_generate_report missingStore 1 2026).months.map (fun p => p.2.net_profit))
        = List.replicate 12 0
    ∧ (PL_generate_report missingStore 1 2026).ytd.net_profit = 0
    ∧ BS_generate_report missingStore 1 2026 = Except.error ("not found") := by
  refine ⟨rfl, by decide, by decide, rfl⟩

/-- C7 amended: the P&L engine has no failure modes at all and performs
    no existence check: any business id whose transaction set is empty —
    in particular a missing business, for which the store yields no
    data — produces the all-zero report (every month and the YTD equal
    zeroMonthPL), not a not-found error. -/
theorem C7_pl_missing_business_all_zero (s : Store) (business_id : ℕ) (year : ℤ)
    (h : (s.ledgerOf business_id).transactions = []) :
    (∀ p ∈ (PL_generate_report s business_id year).months, p.2 = zeroMonthPL)
    ∧ (PL_generate_report s business_id year).ytd = zeroMonthPL :=
  plReport_empty (s.ledgerOf business_id) year h

/-- C7 witness: the empty store. -/
theorem C7_pl_missing_business_all_zero_witness :
    (missingStore.ledgerOf 7).transactions = []
    ∧ ((∀ p ∈ (PL_generate_report missingStore 7 2026).months, p.2 = zeroMonthPL)
        ∧ (PL_generate_report missingStore 7 2026).ytd = zeroMonthPL) :=
  ⟨rfl, C7_pl_missing_business_all_zero missingStore 7 2026 rfl⟩

/-- C8 counterexample: the claim says validate_transactions takes the
    stale-check's current date as an explicit as_of parameter so that
    two runs at different times agree.  The source reads
    datetime.date.today() inside the check (the embedding's `today`
    argument stands for that clock read, the source has no such
    parameter): for a fixed ledger with one unreconciled transaction
    dated 2026-01-20, a run when the clock reads 2026-02-05 differs from
    a run when it reads 2026-03-05 (the stale warning appears only in
    the second). -/
theorem C8_wall_clock_counterexample :
    validate_transactions staleLedger none none ⟨2026, 2, 5⟩
      ≠ validate_transactions staleLedger none none ⟨2026, 3, 5⟩ := by decide

/-- C8 amended: the clock dependence is confined to the
    stale-reconciliation check, but it reaches both that warning's
    firing and its payload: a stale finding is produced exactly when the
    transaction is unreconciled and more than 30 days older than the
    clock date, and it carries the clock-dependent day count
    (days_unreconciled) in its payload; the errors list and the
    non-stale warnings are identical across any two clock dates; and
    whenever two clock dates produce identical stale findings (same
    firing AND same day counts) for every transaction, the two runs
    agree in full. -/
theorem C8_clock_dependence :
    (∀ (today : Date) (t : Transaction),
      check_unreconciled_transaction today t
        = if ¬t.is_reconciled = true ∧ 30 < today.toDays - t.date.toDays then
            some ⟨t.id, ValidationErrorType.unreconciled_transaction,
                  ValidationSeverity.warning, some (today.toDays - t.date.toDays)⟩
          else none)
    ∧ (∀ (l : Ledger) (year : Option ℤ) (month : Option ℕ) (d1 d2 : Date),
        (validate_transactions l year month d1).errors
            = (validate_transactions l year month d2).errors
        ∧ (validate_transactions l year month d1).warnings.filter
              (fun f => decide ( f.error_type ≠ ValidationErrorType.unreconciled_transaction))
            = (validate_transactions l year month d2).warnings.filter
              (fun f => decide ( f.error_type ≠ ValidationErrorType.unreconciled_transaction)))
    ∧ ∀ (l : Ledger) (year : Option ℤ) (month : Option ℕ) (d1 d2 : Date),
        (∀ t ∈ l.transactions,
          check_unreconciled_transaction d1 t = check_unreconciled_transaction d2 t) →
        validate_transactions l year month d1 = validate_transactions l year month d2 := by
  refine ⟨?_, ?_, validate_transactions_clock⟩
  · intro today t
    rfl
  · intro l year month d1 d2
    refine ⟨rfl, ?_⟩
    rw [warnings_filter_transfer, warnings_filter_transfer]

/-- C8 witness: the stale finding's exact shape at a concrete date and
    transaction, and two clock dates 16 and 17 days after the fixture's
    transaction, whose stale findings coincide (both absent) and whose
    runs therefore agree. -/
theorem C8_clock_dependence_witness :
    (check_unreconciled_transaction ⟨2026, 3, 5⟩
        ⟨1, 1, ⟨2026, 1, 20⟩, TransactionDirection.IN, 10000, 0, 10000, false, []⟩
      = if ¬(false : Bool) = true ∧
            30 < (Date.mk 2026 3 5).toDays - (Date.mk 2026 1 20).toDays then
          some ⟨1, ValidationErrorType.unreconciled_transaction,
                ValidationSeverity.warning,
                some ((Date.mk 2026 3 5).toDays - (Date.mk 2026 1 20).toDays)⟩
        else none)
    ∧ validate_transactions staleLedger none none ⟨2026, 2, 5⟩
        = validate_transactions staleLedger none none ⟨2026, 2, 6⟩ :=
  ⟨C8_clock_dependence.1 ⟨2026, 3, 5⟩
      ⟨1, 1, ⟨2026, 1, 20⟩, TransactionDirection.IN, 10000, 0, 10000, false, []⟩,
   C8_clock_dependence.2.2 staleLedger none none ⟨2026, 2, 5⟩ ⟨2026, 2, 6⟩ (by decide)⟩

/-- C9 The YTD entry is the element-wise sum of the twelve monthly
    structures: every scalar field of the YTD (income, COGS and expense
    totals, the inventory adjustment, gross profit and net profit)
    equals the sum of that field over the months.  And for every
    category (ids and codes unique and nonzero, the data-model
    invariants): its code is absent from a month's by-category map
    exactly when no allocation line of that month references it
    (sparse, not zero-filled); it is absent from the YTD map exactly
    when absent from every month; and when present in YTD its value is
    the sum of its monthly amounts (months merged key-wise). -/
theorem C9_sparse_maps_and_ytd_merge (l : Ledger) (year : ℤ)
    (hids : (l.categories.map (·.id)).Nodup)
    (hcodes : (l.categories.map (·.code)).Nodup)
    (hid0 : ∀ c ∈ l.categories, c.id ≠ 0) :
    ((plReportOfLedger l year).ytd.income_total
        = ((plReportOfLedger l year).months.map (fun mq => mq.2.income_total)).sum
      ∧ (plReportOfLedger l year).ytd.cogs_total
        = ((plReportOfLedger l year).months.map (fun mq => mq.2.cogs_total)).sum
      ∧ (plReportOfLedger l year).ytd.inventory_adjustment
        = ((plReportOfLedger l year).months.map (fun mq => mq.2.inventory_adjustment)).sum
      ∧ (plReportOfLedger l year).ytd.expenses_total
        = ((plReportOfLedger l year).months.map (fun mq => mq.2.expenses_total)).sum
      ∧ (plReportOfLedger l year).ytd.gross_profit
        = ((plReportOfLedger l year).months.map (fun mq => mq.2.gross_profit)).sum
      ∧ (plReportOfLedger l year).ytd.net_profit
        = ((plReportOfLedger l year).months.map (fun mq => mq.2.net_profit)).sum)
    ∧ ∀ c ∈ l.categories,
      (∀ mp ∈ (plReportOfLedger l year).months,
        (lookupKey (categoryMapOf c.type mp.2) c.code = none ↔
          ∀ t ∈ l.transactions, inMonthWindow year mp.1 t.date = true →
            ∀ ln ∈ t.lines, ln.category_id ≠ some c.id))
      ∧ (lookupKey (categoryMapOf c.type (plReportOfLedger l year).ytd) c.code = none ↔
          ∀ mq ∈ (plReportOfLedger l year).months,
            lookupKey (categoryMapOf c.type mq.2) c.code = none)
      ∧ (∀ v, lookupKey (categoryMapOf c.type (plReportOfLedger l year).ytd) c.code = some v →
          v = ((plReportOfLedger l year).months.map
                (fun mq => (lookupKey (categoryMapOf c.type mq.2) c.code).getD 0)).sum) := by
  constructor
  · have h := calculate_ytd_scalars ((plReportOfLedger l year).months.map (·.2))
    have hytd : (plReportOfLedger l year).ytd
        = calculate_ytd ((plReportOfLedger l year).months.map (·.2)) := rfl
    refine ⟨?_, ?_, ?_, ?_, ?_, ?_⟩
    · rw [hytd, h.1, List.map_map]
      try rfl
    · rw [hytd, h.2.1, List.map_map]
      try rfl
    · rw [hytd, h.2.2.1, List.map_map]
      try rfl
    · rw [hytd, h.2.2.2.1, List.map_map]
      try rfl
    · rw [hytd, h.2.2.2.2.1, List.map_map]
      try rfl
    · rw [hytd, h.2.2.2.2.2, List.map_map]
      try rfl
  intro c hc
  refine ⟨?_, (ytd_map_char l year c).1, (ytd_map_char l year c).2⟩
  intro mp hmp
  simp only [plReportOfLedger, List.mem_map] at hmp
  obtain ⟨i, _, rfl⟩ := hmp
  exact month_map_char l year (i + 1) c hc hids hcodes hid0

/-- C9 witness: in okLedger the YTD net profit is the sum of the twelve
    monthly net profits, and the income category head_1 is present in
    the YTD map with exactly the sum of its monthly amounts. -/
theorem C9_sparse_maps_and_ytd_merge_witness :
    (plReportOfLedger okLedger 2026).ytd.net_profit
      = ((plReportOfLedger okLedger 2026).months.map (fun mq => mq.2.net_profit)).sum
    ∧ lookupKey (categoryMapOf CategoryType.INCOME (plReportOfLedger okLedger 2026).ytd)
        ("head_1")
      = some (((plReportOfLedger okLedger 2026).months.map
          (fun mq => (lookupKey (categoryMapOf CategoryType.INCOME mq.2) ("head_1")).getD 0)).sum) := by
  have h := C9_sparse_maps_and_ytd_merge okLedger 2026 (by decide) (by decide) (by decide)
  refine ⟨h.1.2.2.2.2.2, ?_⟩
  have hcat := h.2 ⟨1, "head_1", CategoryType.INCOME⟩ (by decide)
  have hv : lookupKey (categoryMapOf CategoryType.INCOME (plReportOfLedger okLedger 2026).ytd)
      ("head_1") = some 10000 := by decide
  have h2 : (10000 : ℤ) = ((plReportOfLedger okLedger 2026).months.map
      (fun mq => (lookupKey (categoryMapOf CategoryType.INCOME mq.2) ("head_1")).getD 0)).sum :=
    hcat.2.2 10000 hv
  rw [hv]
  exact congrArg some h2

/-- C10 counterexample: the claim says a zero-line transaction receives
    exactly one finding.  A zero-line transaction that is also
    unreconciled and more than 30 days old receives two: the
    missing-allocation error and a stale-reconciliation warning. -/
theorem C10_two_findings_counterexample :
    (validate_transactions staleLedger none none ⟨2026, 3, 1⟩).errors
      = [⟨1, ValidationErrorType.missing_allocation, ValidationSeverity.error, none⟩]
    ∧ (validate_transactions staleLedger none none ⟨2026, 3, 1⟩).warnings
      = [⟨1, ValidationErrorType.unreconciled_transaction, ValidationSeverity.warning,
          some 40⟩]
    ∧ (validate_transactions staleLedger none none ⟨2026, 3, 1⟩).error_count
        + (validate_transactions staleLedger none none ⟨2026, 3, 1⟩).warning_count ≠ 1 := by
  refine ⟨by decide, by decide, by decide⟩

/-- C10 amended: a zero-line transaction yields exactly one
    error-severity finding — the missing-allocation error — and the
    allocation-mismatch and transfer checks yield none for it; in
    addition the stale-reconciliation warning may fire, exactly when the
    transaction is unreconciled and more than 30 days older than the
    clock date. -/
theorem C10_zero_lines_findings (t : Transaction) (today : Date) (h : t.lines = []) :
    check_missing_allocation t
        = some ⟨t.id, ValidationErrorType.missing_allocation, ValidationSeverity.error, none⟩
    ∧ check_allocation_mismatch t = none
    ∧ check_transfer_balance t = none
    ∧ ((check_unreconciled_transaction today t).isSome = true
        ↔ (¬t.is_reconciled = true ∧ 30 < today.toDays - t.date.toDays)) := by
  refine ⟨?_, ?_, ?_, ?_⟩
  · rw [check_missing_allocation, if_pos h]
  · rw [check_allocation_mismatch, if_pos h]
  · rw [check_transfer_balance]
    rw [if_neg]
    intro hcon
    rw [h] at hcon
    simp at hcon
  · rw [check_unreconciled_transaction]
    by_cases hc : ¬t.is_reconciled = true ∧ 30 < today.toDays - t.date.toDays
    · rw [if_pos hc]
      simp [hc]
    · rw [if_neg hc]
      simpa using hc

/-- C10 witness at the stale fixture transaction. -/
theorem C10_zero_lines_findings_witness :
    check_missing_allocation
        ⟨1, 1, ⟨2026, 1, 20⟩, TransactionDirection.IN, 10000, 0, 10000, false, []⟩
      = some ⟨1, ValidationErrorType.missing_allocation, ValidationSeverity.error, none⟩
    ∧ check_allocation_mismatch
        ⟨1, 1, ⟨2026, 1, 20⟩, TransactionDirection.IN, 10000, 0, 10000, false, []⟩ = none
    ∧ check_transfer_balance
        ⟨1, 1, ⟨2026, 1, 20⟩, TransactionDirection.IN, 10000, 0, 10000, false, []⟩ = none
    ∧ ((check_unreconciled_transaction ⟨2026, 3, 1⟩
          ⟨1, 1, ⟨2026, 1, 20⟩, TransactionDirection.IN, 10000, 0, 10000, false, []⟩).isSome
            = true
        ↔ (¬(false : Bool) = true ∧
            30 < (Date.mk 2026 3 1).toDays - (Date.mk 2026 1 20).toDays)) :=
  C10_zero_lines_findings
    ⟨1, 1, ⟨2026, 1, 20⟩, TransactionDirection.IN, 10000, 0, 10000, false, []⟩
    ⟨2026, 3, 1⟩ rfl

end AccApp
